import Mathlib

/-!
# Tetris Stack: lookahead queue, reserve stack and swap engine

Shallow embedding of `src/mestre.c` (the richest of the three program variants), of the queue
functions and the `main` loop of `src/novato.c` (namespace `Novato`) and of the one menu case of
`src/aventureiro.c` used here (namespace `Aventureiro`).  The functions `inicializarFila`
to `exibirPilha` and `gerarPeca` of aventureiro.c are the same text as in mestre.c, and so is
`gerarPeca` of novato.c: one definition embeds them.

Conventions of the embedding:

* C `int` is `Int`, unbounded: signed overflow (undefined in C) is outside the model.  The
  indices and the count stay within `-1..5` on every path that does not leave an array; the
  only unbounded quantity is the id counter, which grows by one per generated piece.
  The C remainder `%` truncates towards zero, so it is `Int.tmod`.
* A C array of fixed size is a record with one field per slot.  Reading or writing a slot
  through an index outside the array is undefined in C; here it yields `none`.  Every
  function that indexes an array therefore returns an `Option`, and `none` means
  "undefined behaviour", never "the function returned 0".
* A function taking pointers returns the new value of everything it may write,
  next to its C return value.
* The global `proximoId` is passed to and returned from the functions that use it.
* `rand()` is an external source: the value it returns is an argument `r : Nat`.
* `printf` output is recorded as a list of `Msg`, one constructor per message of the source.
-/

namespace Tetris

/-- Piece of the game: `typedef struct { char nome; int id; } Peca;` -/
structure Peca where
  nome : Char
  id : Int
deriving DecidableEq, Repr

/-- Array of three slots, `T x[3]`. -/
structure Arr3 (α : Type) where
  s0 : α
  s1 : α
  s2 : α
deriving DecidableEq, Repr

/-- Array of five slots, `T x[5]`. -/
structure Arr5 (α : Type) where
  s0 : α
  s1 : α
  s2 : α
  s3 : α
  s4 : α
deriving DecidableEq, Repr

/-- Read `a[i]`; `none` when `i` is outside `0..2`. -/
def Arr3.read {α : Type} (a : Arr3 α) (i : Int) : Option α :=
  if i = 0 then some a.s0
  else if i = 1 then some a.s1
  else if i = 2 then some a.s2
  else none

/-- Assignment `a[i] = x`; `none` when `i` is outside `0..2`. -/
def Arr3.write {α : Type} (a : Arr3 α) (i : Int) (x : α) : Option (Arr3 α) :=
  if i = 0 then some { a with s0 := x }
  else if i = 1 then some { a with s1 := x }
  else if i = 2 then some { a with s2 := x }
  else none

/-- Read `a[i]`; `none` when `i` is outside `0..4`. -/
def Arr5.read {α : Type} (a : Arr5 α) (i : Int) : Option α :=
  if i = 0 then some a.s0
  else if i = 1 then some a.s1
  else if i = 2 then some a.s2
  else if i = 3 then some a.s3
  else if i = 4 then some a.s4
  else none

/-- Assignment `a[i] = x`; `none` when `i` is outside `0..4`. -/
def Arr5.write {α : Type} (a : Arr5 α) (i : Int) (x : α) : Option (Arr5 α) :=
  if i = 0 then some { a with s0 := x }
  else if i = 1 then some { a with s1 := x }
  else if i = 2 then some { a with s2 := x }
  else if i = 3 then some { a with s3 := x }
  else if i = 4 then some { a with s4 := x }
  else none

/-- Local array `Peca temp[3]` before any assignment: no slot holds a value yet. -/
def Arr3.uninit : Arr3 (Option Peca) := ⟨none, none, none⟩

/-- Circular queue of upcoming pieces: `Peca pecas[5]; int frente; int tras; int tamanho;` -/
structure FilaPecas where
  pecas : Arr5 Peca
  frente : Int
  tras : Int
  tamanho : Int
deriving DecidableEq, Repr

/-- Reserve stack: `Peca pecas[3]; int topo;` -/
structure PilhaReserva where
  pecas : Arr3 Peca
  topo : Int
deriving DecidableEq, Repr

/-- Messages written by `printf` in the functions and menu cases embedded here. -/
inductive Msg where
  /-- "Erro: Fila vazia! Nao e possivel realizar a troca." -/
  | erroTrocaFilaVazia
  /-- "Erro: Pilha vazia! Nao e possivel realizar a troca." -/
  | erroTrocaPilhaVazia
  /-- "Troca simples realizada: [%c %d] da fila <-> [%c %d] da pilha" -/
  | trocaSimplesRealizada (pecaFila pecaPilha : Peca)
  /-- "Erro: Fila deve ter exatamente 5 pecas para troca multipla." -/
  | erroFilaNaoTem5
  /-- "Erro: Pilha deve ter exatamente 3 pecas para troca multipla." -/
  | erroPilhaNaoTem3
  /-- "Troca multipla realizada: 3 primeiros da fila <-> 3 pecas da pilha" -/
  | trocaMultiplaRealizada
  /-- "Fila de pecas: " -/
  | cabecalhoFila
  /-- "Fila vazia!" -/
  | filaVazia
  /-- "Pilha de reserva (Topo -> Base): " -/
  | cabecalhoPilha
  /-- "Vazia" -/
  | pilhaVaziaMsg
  /-- "[%c %d] " -/
  | peca (p : Peca)
  /-- "Peca jogada: [%c %d]" -/
  | pecaJogada (p : Peca)
  /-- "Nova peca gerada automaticamente para a fila." -/
  | novaPecaGerada
  /-- "Erro: Nao foi possivel jogar a peca." -/
  | erroJogar
  /-- "Erro: Pilha de reserva cheia! Nao e possivel reservar mais pecas." followed by
  "Use uma peca reservada primeiro para liberar espaco." -/
  | erroReservaCheia
  /-- "Peca enviada para reserva: [%c %d]" -/
  | pecaEnviada (p : Peca)
  /-- "Erro: Nao foi possivel enviar a peca para reserva." -/
  | erroEnviar
  /-- "Erro: Nao foi possivel remover peca da fila." -/
  | erroRemover
  /-- "Peca da reserva usada: [%c %d]" -/
  | pecaUsada (p : Peca)
  /-- "Erro: Pilha de reserva vazia! Nao ha pecas reservadas para usar." followed by
  "Envie uma peca para a reserva primeiro." -/
  | erroReservaVazia
  /-- "Exibindo estado atual do sistema..." -/
  | exibindo
  /-- "Saindo do programa..." followed by "Obrigado por jogar Tetris Stack Expert!" -/
  | saindo
  /-- "Opcao invalida! Por favor, escolha uma opcao de 0 a 6." -/
  | opcaoInvalida
  /-- "Peca reservada: [%c %d]" (aventureiro.c) -/
  | pecaReservada (p : Peca)
  /-- "Erro: Nao foi possivel reservar a peca." (aventureiro.c) -/
  | erroReservar
  /-- "Fila de pecas" on a line of its own (novato.c) -/
  | cabecalhoFilaNovato
  /-- "Erro: Fila vazia! Nao e possivel jogar uma peca." (novato.c) -/
  | erroJogarFilaVazia
  /-- "Nova peca inserida: [%c %d]" (novato.c) -/
  | novaPecaInserida (p : Peca)
  /-- "Erro: Nao foi possivel inserir a peca." (novato.c) -/
  | erroInserir
  /-- "Erro: Fila cheia! Nao e possivel inserir nova peca." followed by
  "Jogue uma peca primeiro para liberar espaco." (novato.c) -/
  | erroFilaCheia
  /-- "Saindo do programa..." followed by "Obrigado por jogar Tetris Stack!" (novato.c) -/
  | saindoNovato
  /-- "Opcao invalida! Por favor, escolha 0, 1 ou 2." (novato.c) -/
  | opcaoInvalidaNovato
deriving DecidableEq, Repr

/-- The table `char tipos[] = {'I', 'O', 'T', 'L'}` of `gerarPeca`. -/
def tipos : List Char := ['I', 'O', 'T', 'L']

/-- `gerarPeca` (mestre.c 333-344): `r` is the value returned by `rand()`.
Returns the new piece and the new value of `proximoId`. -/
def gerarPeca (r : Nat) (proximoId : Int) : Peca × Int :=
  ({ nome := tipos.get ⟨r % 4, Nat.mod_lt r (by decide)⟩, id := proximoId }, proximoId + 1)

/-- `enqueueAutomatico` (mestre.c 90-107).  Returns the C return value, the queue and
`proximoId`. -/
def enqueueAutomatico (r : Nat) (fila : FilaPecas) (proximoId : Int) :
    Option (Int × FilaPecas × Int) :=
  if fila.tamanho ≥ 5 then
    some (0, fila, proximoId)
  else do
    let novaPeca := gerarPeca r proximoId
    let pecas ← fila.pecas.write fila.tras novaPeca.1
    some (1, { fila with pecas := pecas,
                         tras := Int.tmod (fila.tras + 1) 5,
                         tamanho := fila.tamanho + 1 }, novaPeca.2)

/-- `inicializarFila` (mestre.c 74-83): `rs i` is the value `rand()` returns in iteration `i`.
The prior content of the structure is whatever the caller's memory held. -/
def inicializarFila (rs : Nat → Nat) (fila : FilaPecas) (proximoId : Int) :
    Option (FilaPecas × Int) :=
  [0, 1, 2, 3, 4].foldlM
    (fun (st : FilaPecas × Int) (i : Nat) => do
      let res ← enqueueAutomatico (rs i) st.1 st.2
      some (res.2.1, res.2.2))
    ({ fila with frente := 0, tras := 0, tamanho := 0 }, proximoId)

/-- `dequeueFila` (mestre.c 115-130).  `peca` is the caller's variable behind the pointer;
returns the C return value, the queue and the caller's variable. -/
def dequeueFila (fila : FilaPecas) (peca : Peca) : Option (Int × FilaPecas × Peca) :=
  if fila.tamanho = 0 then
    some (0, fila, peca)
  else do
    let p ← fila.pecas.read fila.frente
    some (1, { fila with frente := Int.tmod (fila.frente + 1) 5,
                         tamanho := fila.tamanho - 1 }, p)

/-- Loop of `exibirFila`: `n` iterations left, cursor `indice`. -/
def exibirFilaLaco (pecas : Arr5 Peca) : Nat → Int → Option (List Msg)
  | 0, _ => some []
  | n + 1, indice => do
    let p ← pecas.read indice
    let resto ← exibirFilaLaco pecas n (Int.tmod (indice + 1) 5)
    some (Msg.peca p :: resto)

/-- `exibirFila` (mestre.c 136-150): the messages printed. -/
def exibirFila (fila : FilaPecas) : Option (List Msg) :=
  if fila.tamanho = 0 then
    some [Msg.cabecalhoFila, Msg.filaVazia]
  else do
    let ps ← exibirFilaLaco fila.pecas fila.tamanho.toNat fila.frente
    some (Msg.cabecalhoFila :: ps)

/-- `inicializarPilha` (mestre.c 160-162). -/
def inicializarPilha (pilha : PilhaReserva) : PilhaReserva :=
  { pilha with topo := -1 }

/-- `pilhaCheia` (mestre.c 169-171). -/
def pilhaCheia (pilha : PilhaReserva) : Int :=
  if pilha.topo = 2 then 1 else 0

/-- `pilhaVazia` (mestre.c 178-180). -/
def pilhaVazia (pilha : PilhaReserva) : Int :=
  if pilha.topo = -1 then 1 else 0

/-- `pushPilha` (mestre.c 188-198). -/
def pushPilha (pilha : PilhaReserva) (peca : Peca) : Option (Int × PilhaReserva) :=
  if pilhaCheia pilha ≠ 0 then
    some (0, pilha)
  else do
    let topo := pilha.topo + 1
    let pecas ← pilha.pecas.write topo peca
    some (1, { pecas := pecas, topo := topo })

/-- `popPilha` (mestre.c 206-218). -/
def popPilha (pilha : PilhaReserva) (peca : Peca) : Option (Int × PilhaReserva × Peca) :=
  if pilhaVazia pilha ≠ 0 then
    some (0, pilha, peca)
  else do
    let p ← pilha.pecas.read pilha.topo
    some (1, { pilha with topo := pilha.topo - 1 }, p)

/-- Loop of `exibirPilha`, `for (i = topo; i >= 0; i--)`: `n` iterations left, index `i`. -/
def exibirPilhaLaco (pecas : Arr3 Peca) : Nat → Int → Option (List Msg)
  | 0, _ => some []
  | n + 1, i => do
    let p ← pecas.read i
    let resto ← exibirPilhaLaco pecas n (i - 1)
    some (Msg.peca p :: resto)

/-- `exibirPilha` (mestre.c 224-236): the messages printed. -/
def exibirPilha (pilha : PilhaReserva) : Option (List Msg) :=
  if pilhaVazia pilha ≠ 0 then
    some [Msg.cabecalhoPilha, Msg.pilhaVaziaMsg]
  else do
    let ps ← exibirPilhaLaco pilha.pecas (pilha.topo + 1).toNat pilha.topo
    some (Msg.cabecalhoPilha :: ps)

/-- `trocarSimples` (mestre.c 248-272).  Returns the C return value, both containers and
the messages printed. -/
def trocarSimples (fila : FilaPecas) (pilha : PilhaReserva) :
    Option (Int × FilaPecas × PilhaReserva × List Msg) :=
  if fila.tamanho = 0 then
    some (0, fila, pilha, [Msg.erroTrocaFilaVazia])
  else if pilhaVazia pilha ≠ 0 then
    some (0, fila, pilha, [Msg.erroTrocaPilhaVazia])
  else do
    let pecaFila ← fila.pecas.read fila.frente
    let pecaPilha ← pilha.pecas.read pilha.topo
    let pecasF ← fila.pecas.write fila.frente pecaPilha
    let pecasP ← pilha.pecas.write pilha.topo pecaFila
    some (1, { fila with pecas := pecasF }, { pilha with pecas := pecasP },
          [Msg.trocaSimplesRealizada pecaFila pecaPilha])

/-- First loop of `trocarMultipla` (mestre.c 297-301): saves the three first pieces of the
queue in `tempFila`. -/
def salvarFila (fila : FilaPecas) : Option (Arr3 (Option Peca)) := do
  let res ← [0, 1, 2].foldlM
    (fun (st : Arr3 (Option Peca) × Int) (i : Int) => do
      let p ← fila.pecas.read st.2
      let t ← st.1.write i (some p)
      some (t, Int.tmod (st.2 + 1) 5))
    (Arr3.uninit, fila.frente)
  some res.1

/-- Second loop of `trocarMultipla` (mestre.c 304-306): saves the stack in `tempPilha`. -/
def salvarPilha (pilha : PilhaReserva) : Option (Arr3 (Option Peca)) :=
  [0, 1, 2].foldlM
    (fun (t : Arr3 (Option Peca)) (i : Int) => do
      let p ← pilha.pecas.read i
      t.write i (some p))
    Arr3.uninit

/-- Third loop of `trocarMultipla` (mestre.c 309-313): `i` runs 2, 1, 0 while the queue
cursor runs forward from `frente`. -/
def pilhaParaFila (fila : FilaPecas) (tempPilha : Arr3 (Option Peca)) : Option (Arr5 Peca) := do
  let res ← [2, 1, 0].foldlM
    (fun (st : Arr5 Peca × Int) (i : Int) => do
      let p ← (← tempPilha.read i)
      let a ← st.1.write st.2 p
      some (a, Int.tmod (st.2 + 1) 5))
    (fila.pecas, fila.frente)
  some res.1

/-- Fourth loop of `trocarMultipla` (mestre.c 316-318): `pilha->pecas[i] = tempFila[2 - i]`. -/
def filaParaPilha (pilha : PilhaReserva) (tempFila : Arr3 (Option Peca)) : Option (Arr3 Peca) :=
  [0, 1, 2].foldlM
    (fun (a : Arr3 Peca) (i : Int) => do
      let p ← (← tempFila.read (2 - i))
      a.write i p)
    pilha.pecas

/-- `trocarMultipla` (mestre.c 280-323).  Returns the C return value, both containers and
the messages printed. -/
def trocarMultipla (fila : FilaPecas) (pilha : PilhaReserva) :
    Option (Int × FilaPecas × PilhaReserva × List Msg) :=
  if fila.tamanho ≠ 5 then
    some (0, fila, pilha, [Msg.erroFilaNaoTem5])
  else if pilha.topo ≠ 2 then
    some (0, fila, pilha, [Msg.erroPilhaNaoTem3])
  else do
    let tempFila ← salvarFila fila
    let tempPilha ← salvarPilha pilha
    let pecasF ← pilhaParaFila fila tempPilha
    let pecasP ← filaParaPilha pilha tempFila
    some (1, { fila with pecas := pecasF }, { pilha with pecas := pecasP },
          [Msg.trocaMultiplaRealizada])

/-- Variables of `main` together with the global `proximoId` and the text printed so far. -/
structure Estado where
  fila : FilaPecas
  pilha : PilhaReserva
  pecaProcessada : Peca
  proximoId : Int
  saida : List Msg
deriving DecidableEq, Repr

/-- `exibirEstadoCompleto` (mestre.c 351-355). -/
def exibirEstadoCompleto (fila : FilaPecas) (pilha : PilhaReserva) : Option (List Msg) := do
  let a ← exibirFila fila
  let b ← exibirPilha pilha
  some (a ++ b)

/-- Menu case 1 of `main` (mestre.c 419-430): play the piece at the front of the queue. -/
def caso1 (r : Nat) (s : Estado) : Option Estado := do
  let d ← dequeueFila s.fila s.pecaProcessada
  if d.1 ≠ 0 then
    let e ← enqueueAutomatico r d.2.1 s.proximoId
    some { s with fila := e.2.1, pecaProcessada := d.2.2, proximoId := e.2.2,
                  saida := s.saida ++ [Msg.pecaJogada d.2.2, Msg.novaPecaGerada] }
  else
    some { s with fila := d.2.1, pecaProcessada := d.2.2,
                  saida := s.saida ++ [Msg.erroJogar] }

/-- Menu case 2 of `main` (mestre.c 432-450): send the front piece to the reserve. -/
def caso2 (r : Nat) (s : Estado) : Option Estado :=
  if pilhaCheia s.pilha ≠ 0 then
    some { s with saida := s.saida ++ [Msg.erroReservaCheia] }
  else do
    let d ← dequeueFila s.fila s.pecaProcessada
    if d.1 ≠ 0 then
      let p ← pushPilha s.pilha d.2.2
      if p.1 ≠ 0 then
        let e ← enqueueAutomatico r d.2.1 s.proximoId
        some { s with fila := e.2.1, pilha := p.2, pecaProcessada := d.2.2,
                      proximoId := e.2.2,
                      saida := s.saida ++ [Msg.pecaEnviada d.2.2, Msg.novaPecaGerada] }
      else
        some { s with fila := d.2.1, pilha := p.2, pecaProcessada := d.2.2,
                      saida := s.saida ++ [Msg.erroEnviar] }
    else
      some { s with fila := d.2.1, pecaProcessada := d.2.2,
                    saida := s.saida ++ [Msg.erroRemover] }

/-- Menu case 3 of `main` (mestre.c 452-460): use the piece on top of the reserve. -/
def caso3 (s : Estado) : Option Estado := do
  let p ← popPilha s.pilha s.pecaProcessada
  if p.1 ≠ 0 then
    some { s with pilha := p.2.1, pecaProcessada := p.2.2,
                  saida := s.saida ++ [Msg.pecaUsada p.2.2] }
  else
    some { s with pilha := p.2.1, pecaProcessada := p.2.2,
                  saida := s.saida ++ [Msg.erroReservaVazia] }

/-- Menu case 4 of `main` (mestre.c 462-464). -/
def caso4 (s : Estado) : Option Estado := do
  let t ← trocarSimples s.fila s.pilha
  some { s with fila := t.2.1, pilha := t.2.2.1, saida := s.saida ++ t.2.2.2 }

/-- Menu case 5 of `main` (mestre.c 466-468). -/
def caso5 (s : Estado) : Option Estado := do
  let t ← trocarMultipla s.fila s.pilha
  some { s with fila := t.2.1, pilha := t.2.2.1, saida := s.saida ++ t.2.2.2 }

/-- The `switch (opcao)` of `main` (mestre.c 418-483); `r` is what `rand()` returns if the
case calls it. -/
def processarOpcao (opcao : Int) (r : Nat) (s : Estado) : Option Estado :=
  if opcao = 1 then caso1 r s
  else if opcao = 2 then caso2 r s
  else if opcao = 3 then caso3 s
  else if opcao = 4 then caso4 s
  else if opcao = 5 then caso5 s
  else if opcao = 6 then some { s with saida := s.saida ++ [Msg.exibindo] }
  else if opcao = 0 then some { s with saida := s.saida ++ [Msg.saindo] }
  else some { s with saida := s.saida ++ [Msg.opcaoInvalida] }

/-- One turn of the `do ... while` loop of `main` (mestre.c 409-491): show the state, read
`opcao`, process it. -/
def iteracao (opcao : Int) (r : Nat) (s : Estado) : Option Estado := do
  let d ← exibirEstadoCompleto s.fila s.pilha
  processarOpcao opcao r { s with saida := s.saida ++ d }

/-- The loop of `main` fed with the inputs `(opcao, r)` typed so far; it stops at the first
`opcao = 0`. -/
def executar : List (Int × Nat) → Estado → Option Estado
  | [], s => some s
  | (opcao, r) :: resto, s => do
    let s1 ← iteracao opcao r s
    if opcao ≠ 0 then executar resto s1 else some s1

/-- Start of `main` (mestre.c 395-398): `fila`, `pilha` and `pecaProcessada` are declared
without initialiser (their prior content is arbitrary), `proximoId` starts at 0. -/
def iniciar (rs : Nat → Nat) (fila : FilaPecas) (pilha : PilhaReserva) (peca : Peca) :
    Option Estado := do
  let f ← inicializarFila rs fila 0
  some { fila := f.1, pilha := inicializarPilha pilha, pecaProcessada := peca,
         proximoId := f.2, saida := [] }

/-- State invariant of the `main` loop of mestre.c: the queue is full with its front in range
and `tras = frente`, and the stack index is in `-1..2`. -/
abbrev InvEstado (s : Estado) : Prop :=
  s.fila.tamanho = 5 ∧ 0 ≤ s.fila.frente ∧ s.fila.frente < 5 ∧ s.fila.tras = s.fila.frente ∧
    -1 ≤ s.pilha.topo ∧ s.pilha.topo ≤ 2

/-- One call on the reserve stack, with the arguments chosen by the caller: the piece pushed,
the prior content of the variable `popPilha` writes to, the queue handed to a swap. -/
inductive Chamada where
  | push (peca : Peca)
  | pop (peca : Peca)
  | trocaSimples (fila : FilaPecas)
  | trocaMultipla (fila : FilaPecas)
deriving DecidableEq, Repr

/-- The stack left by one call, whether the call returns 0 or 1. -/
def Chamada.aplicar : Chamada → PilhaReserva → Option PilhaReserva
  | Chamada.push peca, pilha => (pushPilha pilha peca).map (fun res => res.2)
  | Chamada.pop peca, pilha => (popPilha pilha peca).map (fun res => res.2.1)
  | Chamada.trocaSimples fila, pilha => (trocarSimples fila pilha).map (fun res => res.2.2.1)
  | Chamada.trocaMultipla fila, pilha => (trocarMultipla fila pilha).map (fun res => res.2.2.1)

/-- The stack left by a sequence of calls, first call first. -/
def aplicarChamadas : List Chamada → PilhaReserva → Option PilhaReserva
  | [], pilha => some pilha
  | c :: cs, pilha => (c.aplicar pilha).bind (aplicarChamadas cs)

/-- The queue handed to a swap has its front index inside the array. -/
def Chamada.frenteValida : Chamada → Bool
  | Chamada.trocaSimples fila => decide (0 ≤ fila.frente ∧ fila.frente < 5)
  | Chamada.trocaMultipla fila => decide (0 ≤ fila.frente ∧ fila.frente < 5)
  | _ => true

/-- Menu case 2 of `main` in aventureiro.c (351-369): the statements of case 2 of mestre.c
with two other message texts. -/
def Aventureiro.caso2 (r : Nat) (s : Estado) : Option Estado :=
  if pilhaCheia s.pilha ≠ 0 then
    some { s with saida := s.saida ++ [Msg.erroReservaCheia] }
  else do
    let d ← dequeueFila s.fila s.pecaProcessada
    if d.1 ≠ 0 then
      let p ← pushPilha s.pilha d.2.2
      if p.1 ≠ 0 then
        let e ← enqueueAutomatico r d.2.1 s.proximoId
        some { s with fila := e.2.1, pilha := p.2, pecaProcessada := d.2.2,
                      proximoId := e.2.2,
                      saida := s.saida ++ [Msg.pecaReservada d.2.2, Msg.novaPecaGerada] }
      else
        some { s with fila := d.2.1, pilha := p.2, pecaProcessada := d.2.2,
                      saida := s.saida ++ [Msg.erroReservar] }
    else
      some { s with fila := d.2.1, pecaProcessada := d.2.2,
                    saida := s.saida ++ [Msg.erroRemover] }

/-- `filaCheia` (novato.c 93-95). -/
def Novato.filaCheia (fila : FilaPecas) : Int :=
  if fila.tamanho = 5 then 1 else 0

/-- `filaVazia` (novato.c 102-104). -/
def Novato.filaVazia (fila : FilaPecas) : Int :=
  if fila.tamanho = 0 then 1 else 0

/-- `enqueue` (novato.c 112-127).  Returns the C return value and the queue. -/
def Novato.enqueue (fila : FilaPecas) (peca : Peca) : Option (Int × FilaPecas) :=
  if Novato.filaCheia fila ≠ 0 then
    some (0, fila)
  else do
    let pecas ← fila.pecas.write fila.tras peca
    some (1, { fila with pecas := pecas,
                         tras := Int.tmod (fila.tras + 1) 5,
                         tamanho := fila.tamanho + 1 })

/-- `dequeue` (novato.c 135-150).  `peca` is the caller's variable behind the pointer. -/
def Novato.dequeue (fila : FilaPecas) (peca : Peca) : Option (Int × FilaPecas × Peca) :=
  if Novato.filaVazia fila ≠ 0 then
    some (0, fila, peca)
  else do
    let p ← fila.pecas.read fila.frente
    some (1, { fila with frente := Int.tmod (fila.frente + 1) 5,
                         tamanho := fila.tamanho - 1 }, p)

/-- `inicializarFila` (novato.c 59-69): each iteration calls `gerarPeca` and then `enqueue`;
`rs i` is the value `rand()` returns in iteration `i`. -/
def Novato.inicializarFila (rs : Nat → Nat) (fila : FilaPecas) (proximoId : Int) :
    Option (FilaPecas × Int) :=
  [0, 1, 2, 3, 4].foldlM
    (fun (st : FilaPecas × Int) (i : Nat) => do
      let novaPeca := gerarPeca (rs i) st.2
      let res ← Novato.enqueue st.1 novaPeca.1
      some (res.2, novaPeca.2))
    ({ fila with frente := 0, tras := 0, tamanho := 0 }, proximoId)

/-- Repeated calls of one function on the state it leaves, one call per argument in the list:
the C return values in call order and the final state. -/
def repetir {ι σ : Type} (f : ι → σ → Option (Int × σ)) : List ι → σ → Option (List Int × σ)
  | [], s => some ([], s)
  | i :: is, s => do
    let res ← f i s
    let resto ← repetir f is res.2
    some (res.1 :: resto.1, resto.2)

/-- The pieces in `n` queue slots starting at index `i` and going forward circularly. -/
def slotsFila (pecas : Arr5 Peca) : Nat → Int → List Peca
  | 0, _ => []
  | n + 1, i => (pecas.read i).toList ++ slotsFila pecas n ((i + 1) % 5)

/-- The pieces in stack slots `0 .. n-1`, base first. -/
def slotsPilha (pecas : Arr3 Peca) : Nat → List Peca
  | 0 => []
  | n + 1 => slotsPilha pecas n ++ (pecas.read n).toList

/-- `exibirFila` (novato.c 156-171): the messages printed.  Its loop is the loop of
`exibirFila` of mestre.c. -/
def Novato.exibirFila (fila : FilaPecas) : Option (List Msg) :=
  if Novato.filaVazia fila ≠ 0 then
    some [Msg.cabecalhoFilaNovato, Msg.filaVazia]
  else do
    let ps ← exibirFilaLaco fila.pecas fila.tamanho.toNat fila.frente
    some (Msg.cabecalhoFilaNovato :: ps)

/-- Variables of `main` of novato.c together with the global `proximoId` and the text printed
so far. -/
structure Novato.Estado where
  fila : FilaPecas
  pecaRemovida : Peca
  novaPeca : Peca
  proximoId : Int
  saida : List Msg
deriving DecidableEq, Repr

/-- Menu case 1 of `main` in novato.c (229-236): play a piece, a `dequeue` and nothing else. -/
def Novato.caso1 (s : Novato.Estado) : Option Novato.Estado := do
  let d ← Novato.dequeue s.fila s.pecaRemovida
  if d.1 ≠ 0 then
    some { s with fila := d.2.1, pecaRemovida := d.2.2,
                  saida := s.saida ++ [Msg.pecaJogada d.2.2] }
  else
    some { s with fila := d.2.1, pecaRemovida := d.2.2,
                  saida := s.saida ++ [Msg.erroJogarFilaVazia] }

/-- Menu case 2 of `main` in novato.c (238-251): insert a new piece. -/
def Novato.caso2 (r : Nat) (s : Novato.Estado) : Option Novato.Estado :=
  if Novato.filaCheia s.fila = 0 then do
    let g := gerarPeca r s.proximoId
    let e ← Novato.enqueue s.fila g.1
    if e.1 ≠ 0 then
      some { s with fila := e.2, novaPeca := g.1, proximoId := g.2,
                    saida := s.saida ++ [Msg.novaPecaInserida g.1] }
    else
      some { s with fila := e.2, novaPeca := g.1, proximoId := g.2,
                    saida := s.saida ++ [Msg.erroInserir] }
  else
    some { s with saida := s.saida ++ [Msg.erroFilaCheia] }

/-- The `switch (opcao)` of `main` in novato.c (228-261). -/
def Novato.processarOpcao (opcao : Int) (r : Nat) (s : Novato.Estado) : Option Novato.Estado :=
  if opcao = 1 then Novato.caso1 s
  else if opcao = 2 then Novato.caso2 r s
  else if opcao = 0 then some { s with saida := s.saida ++ [Msg.saindoNovato] }
  else some { s with saida := s.saida ++ [Msg.opcaoInvalidaNovato] }

/-- One turn of the `do ... while` loop of `main` in novato.c (219-269). -/
def Novato.iteracao (opcao : Int) (r : Nat) (s : Novato.Estado) : Option Novato.Estado := do
  let d ← Novato.exibirFila s.fila
  Novato.processarOpcao opcao r { s with saida := s.saida ++ d }

/-- The loop of `main` of novato.c fed with the inputs `(opcao, r)` typed so far; it stops at
the first `opcao = 0`. -/
def Novato.executar : List (Int × Nat) → Novato.Estado → Option Novato.Estado
  | [], s => some s
  | (opcao, r) :: resto, s => do
    let s1 ← Novato.iteracao opcao r s
    if opcao ≠ 0 then Novato.executar resto s1 else some s1

/-- Start of `main` of novato.c (207-213): `fila`, `pecaRemovida` and `novaPeca` are declared
without initialiser, `proximoId` starts at 0. -/
def Novato.iniciar (rs : Nat → Nat) (fila : FilaPecas) (pecaRemovida novaPeca : Peca) :
    Option Novato.Estado := do
  let f ← Novato.inicializarFila rs fila 0
  some { fila := f.1, pecaRemovida := pecaRemovida, novaPeca := novaPeca,
         proximoId := f.2, saida := [] }

/-- Queue well-formedness: indices inside the array, count within capacity, and the back index
is the front index advanced by the count. -/
abbrev FilaBemFormada (fila : FilaPecas) : Prop :=
  0 ≤ fila.frente ∧ fila.frente < 5 ∧ 0 ≤ fila.tras ∧ fila.tras < 5 ∧
    0 ≤ fila.tamanho ∧ fila.tamanho ≤ 5 ∧ fila.tras = (fila.frente + fila.tamanho) % 5

/-- Spec-side definition for the refinement of a FIFO list (spec 4.2, `snapshot()`): the
pieces in front-to-back order, from the front index, `tamanho` steps forward circularly. -/
def snapshot (fila : FilaPecas) : List Peca :=
  slotsFila fila.pecas fila.tamanho.toNat fila.frente

/-- Spec-side definition of the stack snapshot (spec 4.3, `snapshot()`): the pieces in
top-to-base order, index `topo` down to 0. -/
def snapshotPilha (pilha : PilhaReserva) : List Peca :=
  (slotsPilha pilha.pecas (pilha.topo + 1).toNat).reverse

/-- The pieces in the five queue slots followed by those in the three stack slots. -/
def todosSlots (fila : FilaPecas) (pilha : PilhaReserva) : List Peca :=
  [fila.pecas.s0, fila.pecas.s1, fila.pecas.s2, fila.pecas.s3, fila.pecas.s4,
   pilha.pecas.s0, pilha.pecas.s1, pilha.pecas.s2]

/-! ## Concrete inputs used by the witnesses -/

/-- Full queue with ids 1..5 front to back, `frente = 0`. -/
def exFila : FilaPecas :=
  { pecas := { s0 := { nome := 'I', id := 1 }, s1 := { nome := 'O', id := 2 },
               s2 := { nome := 'T', id := 3 }, s3 := { nome := 'L', id := 4 },
               s4 := { nome := 'I', id := 5 } },
    frente := 0, tras := 0, tamanho := 5 }

/-- Full stack with ids 1, 2, 3 base to top. -/
def exPilha : PilhaReserva :=
  { pecas := { s0 := { nome := 'O', id := 1 }, s1 := { nome := 'T', id := 2 },
               s2 := { nome := 'L', id := 3 } },
    topo := 2 }

/-- Full stack with ids 6, 7, 8 base to top. -/
def exPilha678 : PilhaReserva :=
  { pecas := { s0 := { nome := 'O', id := 6 }, s1 := { nome := 'T', id := 7 },
               s2 := { nome := 'L', id := 8 } },
    topo := 2 }

/-- Queue with `tamanho = 0`. -/
def exFilaVazia : FilaPecas := { exFila with tamanho := 0 }

/-- Stack with `topo = -1`. -/
def exPilhaVazia : PilhaReserva := { exPilha678 with topo := -1 }

/-- Stack holding two pieces, `topo = 1`. -/
def exPilha2 : PilhaReserva := { exPilha678 with topo := 1 }

/-- Full queue whose front is slot 3 (ids 1..5 are at slots 3, 4, 0, 1, 2). -/
def exFilaGirada : FilaPecas :=
  { pecas := { s0 := { nome := 'T', id := 3 }, s1 := { nome := 'L', id := 4 },
               s2 := { nome := 'I', id := 5 }, s3 := { nome := 'I', id := 1 },
               s4 := { nome := 'O', id := 2 } },
    frente := 3, tras := 3, tamanho := 5 }

/-- Calls on the stack: successful and failing pushes and pops, both swaps. -/
def exChamadas : List Chamada :=
  [Chamada.pop ⟨'I', 0⟩, Chamada.push ⟨'I', 1⟩, Chamada.trocaSimples exFilaGirada,
   Chamada.push ⟨'O', 2⟩, Chamada.trocaMultipla exFila, Chamada.push ⟨'T', 3⟩,
   Chamada.push ⟨'L', 4⟩, Chamada.trocaMultipla exFilaGirada, Chamada.pop ⟨'I', 0⟩]

/-- State right after initialisation: queue ids 0..4, empty stack, `proximoId = 5`. -/
def exEstadoInicial : Estado :=
  { fila := { pecas := { s0 := { nome := 'I', id := 0 }, s1 := { nome := 'O', id := 1 },
                         s2 := { nome := 'T', id := 2 }, s3 := { nome := 'L', id := 3 },
                         s4 := { nome := 'I', id := 4 } },
              frente := 0, tras := 0, tamanho := 5 },
    pilha := exPilhaVazia,
    pecaProcessada := { nome := 'L', id := 99 },
    proximoId := 5,
    saida := [] }

/-- Queue holding three pieces in slots 3, 4, 0 (ids 10, 11, 12): `frente = 3`, `tras = 1`. -/
def exFila3 : FilaPecas :=
  { pecas := { s0 := { nome := 'T', id := 12 }, s1 := { nome := 'L', id := 8 },
               s2 := { nome := 'I', id := 9 }, s3 := { nome := 'I', id := 10 },
               s4 := { nome := 'O', id := 11 } },
    frente := 3, tras := 1, tamanho := 3 }

/-- State with an empty queue (`tamanho = 0`) and an empty stack. -/
def exEstadoFilaVazia : Estado := { exEstadoInicial with fila := exFilaVazia }

/-- State with a full queue and a full stack (`topo = 2`). -/
def exEstadoPilhaCheia : Estado := { exEstadoInicial with pilha := exPilha }

/-- State whose queue count is corrupted (`tamanho = 6`); the stack is empty. -/
def exEstadoCorrompido : Estado :=
  { exEstadoInicial with fila := { exEstadoInicial.fila with tamanho := 6 } }

/-! ## Auxiliary lemmas -/

theorem pilhaVazia_ne_zero (pilha : PilhaReserva) : pilhaVazia pilha ≠ 0 ↔ pilha.topo = -1 := by
  unfold pilhaVazia
  split_ifs with h <;> simp [h]

theorem pilhaCheia_ne_zero (pilha : PilhaReserva) : pilhaCheia pilha ≠ 0 ↔ pilha.topo = 2 := by
  unfold pilhaCheia
  split_ifs with h <;> simp [h]

/-- Closed form of a successful `trocarMultipla`, one case per position of the front. -/
theorem trocarMultipla_eval (a b c d e x y z : Peca) (fr tr : Int) (h0 : 0 ≤ fr) (h1 : fr < 5) :
    trocarMultipla ⟨⟨a, b, c, d, e⟩, fr, tr, 5⟩ ⟨⟨x, y, z⟩, 2⟩ =
      some (1,
        ⟨(if fr = 0 then ⟨z, y, x, d, e⟩ else if fr = 1 then ⟨a, z, y, x, e⟩
          else if fr = 2 then ⟨a, b, z, y, x⟩ else if fr = 3 then ⟨x, b, c, z, y⟩
          else ⟨y, x, c, d, z⟩), fr, tr, 5⟩,
        ⟨(if fr = 0 then ⟨c, b, a⟩ else if fr = 1 then ⟨d, c, b⟩
          else if fr = 2 then ⟨e, d, c⟩ else if fr = 3 then ⟨a, e, d⟩
          else ⟨b, a, e⟩), 2⟩,
        [Msg.trocaMultiplaRealizada]) := by
  interval_cases fr <;> rfl

/-- What a defined call of `trocarMultipla` can return. -/
theorem trocarMultipla_ret (fila : FilaPecas) (pilha : PilhaReserva) (r : Int) (f : FilaPecas)
    (p : PilhaReserva) (o : List Msg) (h : trocarMultipla fila pilha = some (r, f, p, o)) :
    (r = 0 ∧ (fila.tamanho ≠ 5 ∨ pilha.topo ≠ 2) ∧ f = fila ∧ p = pilha) ∨
    (r = 1 ∧ fila.tamanho = 5 ∧ pilha.topo = 2 ∧ f.frente = fila.frente ∧ f.tras = fila.tras ∧
      f.tamanho = fila.tamanho ∧ p.topo = pilha.topo) := by
  unfold trocarMultipla at h
  split_ifs at h with h1 h2
  · simp at h
    obtain ⟨rfl, rfl, rfl, rfl⟩ := h
    exact Or.inl ⟨rfl, Or.inl h1, rfl, rfl⟩
  · simp at h
    obtain ⟨rfl, rfl, rfl, rfl⟩ := h
    exact Or.inl ⟨rfl, Or.inr h2, rfl, rfl⟩
  · simp [Option.bind_eq_some] at h
    obtain ⟨_, _, _, _, _, _, _, _, rfl, rfl, rfl, _⟩ := h
    exact Or.inr ⟨rfl, not_not.mp h1, not_not.mp h2, rfl, rfl, rfl, rfl⟩

/-- What a defined call of `trocarSimples` can return. -/
theorem trocarSimples_ret (fila : FilaPecas) (pilha : PilhaReserva) (r : Int) (f : FilaPecas)
    (p : PilhaReserva) (o : List Msg) (h : trocarSimples fila pilha = some (r, f, p, o)) :
    (r = 0 ∧ (fila.tamanho = 0 ∨ pilha.topo = -1) ∧ f = fila ∧ p = pilha) ∨
    (r = 1 ∧ fila.tamanho ≠ 0 ∧ pilha.topo ≠ -1 ∧ f.frente = fila.frente ∧ f.tras = fila.tras ∧
      f.tamanho = fila.tamanho ∧ p.topo = pilha.topo) := by
  unfold trocarSimples at h
  simp only [pilhaVazia_ne_zero] at h
  split_ifs at h with h1 h2
  · simp at h
    obtain ⟨rfl, rfl, rfl, rfl⟩ := h
    exact Or.inl ⟨rfl, Or.inl h1, rfl, rfl⟩
  · simp at h
    obtain ⟨rfl, rfl, rfl, rfl⟩ := h
    exact Or.inl ⟨rfl, Or.inr h2, rfl, rfl⟩
  · simp [Option.bind_eq_some] at h
    obtain ⟨_, _, _, _, _, _, _, _, rfl, rfl, rfl, _⟩ := h
    exact Or.inr ⟨rfl, h1, h2, rfl, rfl, rfl, rfl⟩

/-- The body of `trocarSimples` once both guards are passed. -/
theorem trocarSimples_eval (a b c d e x y z : Peca) (fr tr tam topo : Int)
    (htam : tam ≠ 0) (ht : topo ≠ -1) :
    trocarSimples ⟨⟨a, b, c, d, e⟩, fr, tr, tam⟩ ⟨⟨x, y, z⟩, topo⟩ =
      (do
        let pf ← (⟨a, b, c, d, e⟩ : Arr5 Peca).read fr
        let pp ← (⟨x, y, z⟩ : Arr3 Peca).read topo
        let af ← (⟨a, b, c, d, e⟩ : Arr5 Peca).write fr pp
        let ap ← (⟨x, y, z⟩ : Arr3 Peca).write topo pf
        some (1, ⟨af, fr, tr, tam⟩, ⟨ap, topo⟩, [Msg.trocaSimplesRealizada pf pp])) := by
  simp [trocarSimples, pilhaVazia_ne_zero, htam, ht]

/-! ### The loop of `main` keeps `InvEstado` -/

theorem iniciar_eval (rs : Nat → Nat) (fila : FilaPecas) (pilha : PilhaReserva) (peca : Peca) :
    iniciar rs fila pilha peca =
      some { fila := ⟨⟨(gerarPeca (rs 0) 0).1, (gerarPeca (rs 1) 1).1, (gerarPeca (rs 2) 2).1,
                       (gerarPeca (rs 3) 3).1, (gerarPeca (rs 4) 4).1⟩, 0, 0, 5⟩,
             pilha := ⟨pilha.pecas, -1⟩, pecaProcessada := peca, proximoId := 5, saida := [] } :=
  rfl

theorem inv_intro (s : Estado) (fr topo : Int) (h1 : s.fila.tamanho = 5)
    (h2 : s.fila.frente = fr) (h3 : s.fila.tras = fr) (h4 : s.pilha.topo = topo)
    (hfr : decide (0 ≤ fr ∧ fr < 5) = true) (htopo : decide (-1 ≤ topo ∧ topo ≤ 2) = true) :
    InvEstado s := by
  have hf := of_decide_eq_true hfr
  have ht := of_decide_eq_true htopo
  exact ⟨h1, h2 ▸ hf.1, h2 ▸ hf.2, h3.trans h2.symm, h4 ▸ ht.1, h4 ▸ ht.2⟩

theorem iniciar_inv (rs : Nat → Nat) (fila : FilaPecas) (pilha : PilhaReserva) (peca : Peca) :
    ∃ s, iniciar rs fila pilha peca = some s ∧ InvEstado s :=
  ⟨_, iniciar_eval rs fila pilha peca, inv_intro _ _ _ rfl rfl rfl rfl rfl rfl⟩

theorem exibir_def (s : Estado) (h : InvEstado s) :
    ∃ d, exibirEstadoCompleto s.fila s.pilha = some d := by
  obtain ⟨⟨⟨a, b, c, d, e⟩, fr, tr, tam⟩, ⟨⟨x, y, z⟩, topo⟩, pp, n, out⟩ := s
  obtain ⟨h1, h2, h3, h4, h5, h6⟩ := h
  simp only at h1 h2 h3 h4 h5 h6
  subst tam tr
  interval_cases fr <;> interval_cases topo <;> exact ⟨_, rfl⟩

theorem caso1_inv (r : Nat) (s : Estado) (h : InvEstado s) :
    ∃ s2, caso1 r s = some s2 ∧ InvEstado s2 := by
  obtain ⟨⟨⟨a, b, c, d, e⟩, fr, tr, tam⟩, ⟨⟨x, y, z⟩, topo⟩, pp, n, out⟩ := s
  obtain ⟨h1, h2, h3, h4, h5, h6⟩ := h
  simp only at h1 h2 h3 h4 h5 h6
  subst tam tr
  interval_cases fr <;> interval_cases topo <;>
    exact ⟨_, rfl, inv_intro _ _ _ rfl rfl rfl rfl rfl rfl⟩

theorem caso2_inv (r : Nat) (s : Estado) (h : InvEstado s) :
    ∃ s2, caso2 r s = some s2 ∧ InvEstado s2 := by
  obtain ⟨⟨⟨a, b, c, d, e⟩, fr, tr, tam⟩, ⟨⟨x, y, z⟩, topo⟩, pp, n, out⟩ := s
  obtain ⟨h1, h2, h3, h4, h5, h6⟩ := h
  simp only at h1 h2 h3 h4 h5 h6
  subst tam tr
  interval_cases fr <;> interval_cases topo <;>
    exact ⟨_, rfl, inv_intro _ _ _ rfl rfl rfl rfl rfl rfl⟩

theorem caso3_inv (s : Estado) (h : InvEstado s) :
    ∃ s2, caso3 s = some s2 ∧ InvEstado s2 := by
  obtain ⟨⟨⟨a, b, c, d, e⟩, fr, tr, tam⟩, ⟨⟨x, y, z⟩, topo⟩, pp, n, out⟩ := s
  obtain ⟨h1, h2, h3, h4, h5, h6⟩ := h
  simp only at h1 h2 h3 h4 h5 h6
  subst tam tr
  interval_cases fr <;> interval_cases topo <;>
    exact ⟨_, rfl, inv_intro _ _ _ rfl rfl rfl rfl rfl rfl⟩

theorem caso4_inv (s : Estado) (h : InvEstado s) :
    ∃ s2, caso4 s = some s2 ∧ InvEstado s2 := by
  obtain ⟨⟨⟨a, b, c, d, e⟩, fr, tr, tam⟩, ⟨⟨x, y, z⟩, topo⟩, pp, n, out⟩ := s
  obtain ⟨h1, h2, h3, h4, h5, h6⟩ := h
  simp only at h1 h2 h3 h4 h5 h6
  subst tam tr
  interval_cases fr <;> interval_cases topo <;>
    exact ⟨_, rfl, inv_intro _ _ _ rfl rfl rfl rfl rfl rfl⟩

theorem caso5_inv (s : Estado) (h : InvEstado s) :
    ∃ s2, caso5 s = some s2 ∧ InvEstado s2 := by
  obtain ⟨⟨⟨a, b, c, d, e⟩, fr, tr, tam⟩, ⟨⟨x, y, z⟩, topo⟩, pp, n, out⟩ := s
  obtain ⟨h1, h2, h3, h4, h5, h6⟩ := h
  simp only at h1 h2 h3 h4 h5 h6
  subst tam tr
  interval_cases fr <;> interval_cases topo <;>
    exact ⟨_, rfl, inv_intro _ _ _ rfl rfl rfl rfl rfl rfl⟩

theorem processarOpcao_inv (opcao : Int) (r : Nat) (s : Estado) (h : InvEstado s) :
    ∃ s2, processarOpcao opcao r s = some s2 ∧ InvEstado s2 := by
  unfold processarOpcao
  split_ifs
  · exact caso1_inv r s h
  · exact caso2_inv r s h
  · exact caso3_inv s h
  · exact caso4_inv s h
  · exact caso5_inv s h
  · exact ⟨_, rfl, h⟩
  · exact ⟨_, rfl, h⟩
  · exact ⟨_, rfl, h⟩

theorem iteracao_inv (opcao : Int) (r : Nat) (s : Estado) (h : InvEstado s) :
    ∃ s2, iteracao opcao r s = some s2 ∧ InvEstado s2 := by
  obtain ⟨d, hd⟩ := exibir_def s h
  have h2 : InvEstado { s with saida := s.saida ++ d } := h
  obtain ⟨s2, hs2, hi⟩ := processarOpcao_inv opcao r _ h2
  exact ⟨s2, by simp [iteracao, hd, hs2], hi⟩

theorem executar_inv (ent : List (Int × Nat)) :
    ∀ s : Estado, InvEstado s → ∃ s2, executar ent s = some s2 ∧ InvEstado s2 := by
  induction ent with
  | nil => intro s h; exact ⟨s, rfl, h⟩
  | cons x resto ih =>
    intro s h
    obtain ⟨opcao, r⟩ := x
    obtain ⟨s1, hs1, hi1⟩ := iteracao_inv opcao r s h
    by_cases h0 : opcao ≠ 0
    · obtain ⟨s2, hs2, hi2⟩ := ih s1 hi1
      exact ⟨s2, by simp [executar, hs1, h0, hs2], hi2⟩
    · exact ⟨s1, by simp [executar, hs1, h0], hi1⟩

/-! ### Sequences of calls on the stack -/

theorem aplicar_topo (c : Chamada) (pilha p : PilhaReserva)
    (h0 : -1 ≤ pilha.topo) (h2 : pilha.topo ≤ 2) (h : c.aplicar pilha = some p) :
    -1 ≤ p.topo ∧ p.topo ≤ 2 := by
  cases c with
  | push peca =>
    simp only [Chamada.aplicar, pushPilha, pilhaCheia_ne_zero] at h
    split_ifs at h with hc
    · simp at h; subst h; exact ⟨h0, h2⟩
    · simp [Option.bind_eq_some] at h
      obtain ⟨_, _, rfl⟩ := h
      constructor <;> simp <;> omega
  | pop peca =>
    simp only [Chamada.aplicar, popPilha, pilhaVazia_ne_zero] at h
    split_ifs at h with hc
    · simp at h; subst h; exact ⟨h0, h2⟩
    · simp [Option.bind_eq_some] at h
      obtain ⟨_, _, rfl⟩ := h
      constructor <;> simp <;> omega
  | trocaSimples fila =>
    simp only [Chamada.aplicar, Option.map_eq_some'] at h
    obtain ⟨⟨r, f, q, o⟩, hres, rfl⟩ := h
    rcases trocarSimples_ret fila pilha r f q o hres with ⟨_, _, _, hq⟩ | ⟨_, _, _, _, _, _, hq⟩
    · simp only [hq]; exact ⟨h0, h2⟩
    · simp only [hq]; exact ⟨h0, h2⟩
  | trocaMultipla fila =>
    simp only [Chamada.aplicar, Option.map_eq_some'] at h
    obtain ⟨⟨r, f, q, o⟩, hres, rfl⟩ := h
    rcases trocarMultipla_ret fila pilha r f q o hres with ⟨_, _, _, hq⟩ | ⟨_, _, _, _, _, _, hq⟩
    · simp only [hq]; exact ⟨h0, h2⟩
    · simp only [hq]; exact ⟨h0, h2⟩

theorem aplicar_def (c : Chamada) (pilha : PilhaReserva)
    (h0 : -1 ≤ pilha.topo) (h2 : pilha.topo ≤ 2) (hc : c.frenteValida = true) :
    ∃ p, c.aplicar pilha = some p := by
  obtain ⟨⟨x, y, z⟩, topo⟩ := pilha
  simp only at h0 h2
  cases c with
  | push peca => interval_cases topo <;> exact ⟨_, rfl⟩
  | pop peca => interval_cases topo <;> exact ⟨_, rfl⟩
  | trocaSimples fila =>
    obtain ⟨⟨a, b, c, d, e⟩, fr, tr, tam⟩ := fila
    simp only [Chamada.frenteValida, decide_eq_true_eq] at hc
    obtain ⟨hf0, hf5⟩ := hc
    by_cases htam : tam = 0
    · exact ⟨⟨⟨x, y, z⟩, topo⟩, by simp [Chamada.aplicar, trocarSimples, htam]⟩
    · by_cases ht : topo = -1
      · exact ⟨⟨⟨x, y, z⟩, topo⟩, by simp [Chamada.aplicar, trocarSimples, htam, ht, pilhaVazia]⟩
      · have h0b : 0 ≤ topo := by omega
        simp only [Chamada.aplicar, trocarSimples_eval a b c d e x y z fr tr tam topo htam ht]
        interval_cases fr <;> interval_cases topo <;> exact ⟨_, rfl⟩
  | trocaMultipla fila =>
    obtain ⟨⟨a, b, c, d, e⟩, fr, tr, tam⟩ := fila
    simp only [Chamada.frenteValida, decide_eq_true_eq] at hc
    obtain ⟨hf0, hf5⟩ := hc
    by_cases htam : tam = 5
    · by_cases ht : topo = 2
      · subst htam ht
        exact ⟨_, by simp only [Chamada.aplicar, trocarMultipla_eval a b c d e x y z fr tr hf0 hf5]; rfl⟩
      · exact ⟨⟨⟨x, y, z⟩, topo⟩, by simp [Chamada.aplicar, trocarMultipla, htam, ht]⟩
    · exact ⟨⟨⟨x, y, z⟩, topo⟩, by simp [Chamada.aplicar, trocarMultipla, htam]⟩

theorem aplicarChamadas_topo (cs : List Chamada) :
    ∀ pilha p : PilhaReserva, -1 ≤ pilha.topo → pilha.topo ≤ 2 →
      aplicarChamadas cs pilha = some p → -1 ≤ p.topo ∧ p.topo ≤ 2 := by
  induction cs with
  | nil =>
    intro pilha p h0 h2 h
    simp [aplicarChamadas] at h
    subst h
    exact ⟨h0, h2⟩
  | cons c cs ih =>
    intro pilha p h0 h2 h
    simp only [aplicarChamadas, Option.bind_eq_some] at h
    obtain ⟨q, hq, hp⟩ := h
    obtain ⟨hq0, hq2⟩ := aplicar_topo c pilha q h0 h2 hq
    exact ih q p hq0 hq2 hp

theorem aplicarChamadas_def (cs : List Chamada) :
    ∀ pilha : PilhaReserva, -1 ≤ pilha.topo → pilha.topo ≤ 2 →
      (∀ c ∈ cs, c.frenteValida = true) → ∃ p, aplicarChamadas cs pilha = some p := by
  induction cs with
  | nil => intro pilha _ _ _; exact ⟨pilha, rfl⟩
  | cons c cs ih =>
    intro pilha h0 h2 hv
    obtain ⟨q, hq⟩ := aplicar_def c pilha h0 h2 (hv c (List.mem_cons_self c cs))
    obtain ⟨hq0, hq2⟩ := aplicar_topo c pilha q h0 h2 hq
    obtain ⟨p, hp⟩ := ih q hq0 hq2 (fun d hd => hv d (List.mem_cons_of_mem c hd))
    exact ⟨p, by simp [aplicarChamadas, hq, hp]⟩

/-! ## Swap engine: `trocarMultipla` -/

/-- C1: for every queue with `tamanho = 5` and `0 <= frente < 5` and every stack with
`topo = 2`, `trocarMultipla` returns 1 and afterwards queue slot `(frente+k) mod 5` holds the
old stack slot `2-k` for k = 0,1,2, stack slot `i` holds the old queue piece at
`(frente+(2-i)) mod 5` for i = 0,1,2, the queue slots at `(frente+3) mod 5` and
`(frente+4) mod 5` are unchanged, and `frente`, `tras`, `tamanho` and `topo` are unchanged. -/
theorem trocarMultipla_sucesso (fila : FilaPecas) (pilha : PilhaReserva)
    (htam : fila.tamanho = 5) (hf0 : 0 ≤ fila.frente) (hf5 : fila.frente < 5)
    (htopo : pilha.topo = 2) :
    ∃ fila2 pilha2 out, trocarMultipla fila pilha = some (1, fila2, pilha2, out) ∧
      (∀ k : Int, 0 ≤ k → k ≤ 2 → ∃ p, pilha.pecas.read (2 - k) = some p ∧
        fila2.pecas.read ((fila.frente + k) % 5) = some p) ∧
      (∀ i : Int, 0 ≤ i → i ≤ 2 →
        ∃ p, fila.pecas.read ((fila.frente + (2 - i)) % 5) = some p ∧
          pilha2.pecas.read i = some p) ∧
      (∀ k : Int, 3 ≤ k → k ≤ 4 → ∃ p, fila.pecas.read ((fila.frente + k) % 5) = some p ∧
        fila2.pecas.read ((fila.frente + k) % 5) = some p) ∧
      fila2.frente = fila.frente ∧ fila2.tras = fila.tras ∧ fila2.tamanho = fila.tamanho ∧
      pilha2.topo = pilha.topo := by
  obtain ⟨⟨a, b, c, d, e⟩, fr, tr, tam⟩ := fila
  obtain ⟨⟨x, y, z⟩, topo⟩ := pilha
  simp only at htam hf0 hf5 htopo
  subst htam htopo
  refine ⟨_, _, _, trocarMultipla_eval a b c d e x y z fr tr hf0 hf5, ?_, ?_, ?_,
    rfl, rfl, rfl, rfl⟩
  · intro k hk0 hk2
    interval_cases fr <;> interval_cases k <;> exact ⟨_, rfl, rfl⟩
  · intro k hk0 hk2
    interval_cases fr <;> interval_cases k <;> exact ⟨_, rfl, rfl⟩
  · intro k hk0 hk2
    interval_cases fr <;> interval_cases k <;> exact ⟨_, rfl, rfl⟩

/-- C1, witness: queue ids [1,2,3,4,5] and stack ids [1,2,3] (base to top) give queue ids
[3,2,1,4,5] and stack ids [3,2,1] (base to top). -/
theorem trocarMultipla_sucesso_witness :
    trocarMultipla exFila exPilha =
      some (1,
        { exFila with pecas := { s0 := { nome := 'L', id := 3 }, s1 := { nome := 'T', id := 2 },
                                 s2 := { nome := 'O', id := 1 }, s3 := { nome := 'L', id := 4 },
                                 s4 := { nome := 'I', id := 5 } } },
        { exPilha with pecas := { s0 := { nome := 'T', id := 3 }, s1 := { nome := 'O', id := 2 },
                                  s2 := { nome := 'I', id := 1 } } },
        [Msg.trocaMultiplaRealizada]) ∧
    ∃ fila2 pilha2 out, trocarMultipla exFila exPilha = some (1, fila2, pilha2, out) ∧
      (∀ k : Int, 0 ≤ k → k ≤ 2 → ∃ p, exPilha.pecas.read (2 - k) = some p ∧
        fila2.pecas.read ((exFila.frente + k) % 5) = some p) ∧
      (∀ i : Int, 0 ≤ i → i ≤ 2 →
        ∃ p, exFila.pecas.read ((exFila.frente + (2 - i)) % 5) = some p ∧
          pilha2.pecas.read i = some p) ∧
      (∀ k : Int, 3 ≤ k → k ≤ 4 → ∃ p, exFila.pecas.read ((exFila.frente + k) % 5) = some p ∧
        fila2.pecas.read ((exFila.frente + k) % 5) = some p) ∧
      fila2.frente = exFila.frente ∧ fila2.tras = exFila.tras ∧
      fila2.tamanho = exFila.tamanho ∧ pilha2.topo = exPilha.topo :=
  ⟨by rfl, trocarMultipla_sucesso exFila exPilha rfl (by decide) (by decide) rfl⟩

/-- C2, the code at the failing input: from program start, three send-to-reserve actions
(menu inputs 2, 2, 2) reach a full queue with ids [3,4,5,6,7] front to back (`frente = 3`)
and a full stack with ids [0,1,2] base to top.  There `trocarMultipla` returns 1 and leaves
at the stack base (slot 0) the piece that was third in line (id 5) and at the stack top
(slot 2) the piece that was at the queue front (id 3): the queue front does not end at the
stack base. -/
theorem trocarMultipla_frente_no_topo :
    iniciar (fun i => i) exFila exPilha678 { nome := 'L', id := 99 } = some exEstadoInicial ∧
    ∃ s3 fila2 pilha2 out,
      executar [(2, 0), (2, 0), (2, 0)] exEstadoInicial = some s3 ∧
      trocarMultipla s3.fila s3.pilha = some (1, fila2, pilha2, out) ∧
      s3.fila.frente = 3 ∧ s3.fila.tamanho = 5 ∧ s3.pilha.topo = 2 ∧
      s3.fila.pecas.read s3.fila.frente = some { nome := 'L', id := 3 } ∧
      s3.fila.pecas.read ((s3.fila.frente + 2) % 5) = some { nome := 'I', id := 5 } ∧
      pilha2.pecas.read 0 = some { nome := 'I', id := 5 } ∧
      pilha2.pecas.read 2 = some { nome := 'L', id := 3 } ∧
      pilha2.pecas.read 0 ≠ s3.fila.pecas.read s3.fila.frente ∧
      pilha2.pecas.read 2 ≠ s3.fila.pecas.read ((s3.fila.frente + 2) % 5) :=
  ⟨by rfl, _, _, _, _, by rfl, by rfl, by rfl, by rfl, by rfl, by rfl, by rfl, by rfl, by rfl,
    by decide, by decide⟩

/-- C3: for every queue and stack, `trocarMultipla` returns 0 if and only if `tamanho != 5`
or `topo != 2`, and whenever it returns 0 the queue and the stack it leaves are the ones it
received; through menu case 5 the state keeps its queue, its stack and `proximoId`. -/
theorem trocarMultipla_falha (fila : FilaPecas) (pilha : PilhaReserva) :
    ((∃ f p o, trocarMultipla fila pilha = some (0, f, p, o)) ↔
      (fila.tamanho ≠ 5 ∨ pilha.topo ≠ 2)) ∧
    (∀ f p o, trocarMultipla fila pilha = some (0, f, p, o) → f = fila ∧ p = pilha) ∧
    (∀ s : Estado, s.fila = fila → s.pilha = pilha →
      (∃ f p o, trocarMultipla fila pilha = some (0, f, p, o)) →
      ∃ s2, caso5 s = some s2 ∧ s2.fila = s.fila ∧ s2.pilha = s.pilha ∧
        s2.proximoId = s.proximoId) := by
  have key : ∀ f p o, trocarMultipla fila pilha = some (0, f, p, o) →
      (fila.tamanho ≠ 5 ∨ pilha.topo ≠ 2) ∧ f = fila ∧ p = pilha := by
    intro f p o h
    rcases trocarMultipla_ret fila pilha 0 f p o h with ⟨_, h1, h2, h3⟩ | ⟨h0, _⟩
    · exact ⟨h1, h2, h3⟩
    · exact absurd h0 (by decide)
  refine ⟨⟨?_, ?_⟩, ?_, ?_⟩
  · rintro ⟨f, p, o, h⟩
    exact (key f p o h).1
  · intro h
    unfold trocarMultipla
    by_cases h1 : fila.tamanho ≠ 5
    · exact ⟨_, _, _, by rw [if_pos h1]⟩
    · have h2 : pilha.topo ≠ 2 := h.resolve_left h1
      exact ⟨_, _, _, by rw [if_neg h1, if_pos h2]⟩
  · intro f p o h
    exact (key f p o h).2
  · rintro s hs hp ⟨f, p, o, h⟩
    obtain ⟨_, rfl, rfl⟩ := key f p o h
    exact ⟨{ s with saida := s.saida ++ o }, by simp [caso5, hs, hp, h], rfl, rfl, rfl⟩

/-- C4, counterexample: with `tamanho = 0` and `topo = -1` both preconditions are unmet, and
`trocarMultipla` prints the queue message only. -/
theorem trocarMultipla_duas_razoes_contra :
    exFilaVazia.tamanho ≠ 5 ∧ exPilhaVazia.topo ≠ 2 ∧
    trocarMultipla exFilaVazia exPilhaVazia =
      some (0, exFilaVazia, exPilhaVazia, [Msg.erroFilaNaoTem5]) ∧
    Msg.erroPilhaNaoTem3 ∉ [Msg.erroFilaNaoTem5] := by
  refine ⟨by decide, by decide, by rfl, by decide⟩

/-- C4, amended: `trocarMultipla` checks the queue first and reports exactly one reason.
Whenever a precondition is unmet it returns 0, leaves both containers as they were and prints
one message: the queue message when `tamanho != 5` (whatever the stack holds), the stack
message when `tamanho = 5` and `topo != 2`. -/
theorem trocarMultipla_uma_razao (fila : FilaPecas) (pilha : PilhaReserva)
    (h : fila.tamanho ≠ 5 ∨ pilha.topo ≠ 2) :
    trocarMultipla fila pilha =
      some (0, fila, pilha,
        [if fila.tamanho ≠ 5 then Msg.erroFilaNaoTem5 else Msg.erroPilhaNaoTem3]) := by
  unfold trocarMultipla
  by_cases h1 : fila.tamanho ≠ 5
  · rw [if_pos h1, if_pos h1]
  · have h2 : pilha.topo ≠ 2 := h.resolve_left h1
    rw [if_neg h1, if_pos h2, if_neg h1]

/-- C4, witness: a full queue and a stack of two pieces report the stack reason. -/
theorem trocarMultipla_uma_razao_witness :
    (exFila.tamanho ≠ 5 ∨ exPilha2.topo ≠ 2) ∧
    trocarMultipla exFila exPilha2 =
      some (0, exFila, exPilha2,
        [if exFila.tamanho ≠ 5 then Msg.erroFilaNaoTem5 else Msg.erroPilhaNaoTem3]) :=
  ⟨Or.inr (by decide), trocarMultipla_uma_razao exFila exPilha2 (Or.inr (by decide))⟩

/-! ## Swap engine: `trocarSimples` -/

/-- C5: for every queue with `tamanho > 0` and `0 <= frente < 5` and every stack with
`0 <= topo <= 2`, `trocarSimples` returns 1 and is a transposition: queue slot `frente` holds
the old stack slot `topo`, stack slot `topo` holds the old queue slot `frente`, every other
slot of both arrays is unchanged, `frente`, `tras`, `tamanho` and `topo` are unchanged, and
through menu case 4 `proximoId` is unchanged. -/
theorem trocarSimples_transposicao (fila : FilaPecas) (pilha : PilhaReserva)
    (htam : fila.tamanho > 0) (hf0 : 0 ≤ fila.frente) (hf5 : fila.frente < 5)
    (ht0 : 0 ≤ pilha.topo) (ht2 : pilha.topo ≤ 2) :
    ∃ fila2 pilha2 out, trocarSimples fila pilha = some (1, fila2, pilha2, out) ∧
      (∃ p, pilha.pecas.read pilha.topo = some p ∧ fila2.pecas.read fila.frente = some p) ∧
      (∃ p, fila.pecas.read fila.frente = some p ∧ pilha2.pecas.read pilha.topo = some p) ∧
      (∀ i : Int, i ≠ fila.frente → fila2.pecas.read i = fila.pecas.read i) ∧
      (∀ i : Int, i ≠ pilha.topo → pilha2.pecas.read i = pilha.pecas.read i) ∧
      fila2.frente = fila.frente ∧ fila2.tras = fila.tras ∧ fila2.tamanho = fila.tamanho ∧
      pilha2.topo = pilha.topo ∧
      (∀ s : Estado, s.fila = fila → s.pilha = pilha →
        ∃ s2, caso4 s = some s2 ∧ s2.fila = fila2 ∧ s2.pilha = pilha2 ∧
          s2.proximoId = s.proximoId) := by
  have main : ∃ fila2 pilha2 out, trocarSimples fila pilha = some (1, fila2, pilha2, out) ∧
      (∃ p, pilha.pecas.read pilha.topo = some p ∧ fila2.pecas.read fila.frente = some p) ∧
      (∃ p, fila.pecas.read fila.frente = some p ∧ pilha2.pecas.read pilha.topo = some p) ∧
      (∀ i : Int, i ≠ fila.frente → fila2.pecas.read i = fila.pecas.read i) ∧
      (∀ i : Int, i ≠ pilha.topo → pilha2.pecas.read i = pilha.pecas.read i) ∧
      fila2.frente = fila.frente ∧ fila2.tras = fila.tras ∧ fila2.tamanho = fila.tamanho ∧
      pilha2.topo = pilha.topo := by
    obtain ⟨⟨a, b, c, d, e⟩, fr, tr, tam⟩ := fila
    obtain ⟨⟨x, y, z⟩, topo⟩ := pilha
    simp only at htam hf0 hf5 ht0 ht2
    have hev := trocarSimples_eval a b c d e x y z fr tr tam topo (by omega) (by omega)
    interval_cases fr <;> interval_cases topo <;>
      exact ⟨_, _, _, hev, ⟨_, rfl, rfl⟩, ⟨_, rfl, rfl⟩,
        (by intro i hi; simp [Arr5.read, hi]), (by intro i hi; simp [Arr3.read, hi]),
        rfl, rfl, rfl, rfl⟩
  obtain ⟨fila2, pilha2, out, heq, h1, h2, h3, h4, h5, h6, h7, h8⟩ := main
  refine ⟨fila2, pilha2, out, heq, h1, h2, h3, h4, h5, h6, h7, h8, ?_⟩
  intro s hs hp
  exact ⟨{ s with fila := fila2, pilha := pilha2, saida := s.saida ++ out },
    by simp [caso4, hs, hp, heq], rfl, rfl, rfl⟩

/-- C5, witness: a full queue whose front is slot 3 and a stack of two pieces (`topo = 1`):
the front piece (id 1) and the top piece (id 7) change places. -/
theorem trocarSimples_transposicao_witness :
    trocarSimples exFilaGirada exPilha2 =
      some (1,
        { exFilaGirada with pecas := { exFilaGirada.pecas with s3 := { nome := 'T', id := 7 } } },
        { exPilha2 with pecas := { exPilha2.pecas with s1 := { nome := 'I', id := 1 } } },
        [Msg.trocaSimplesRealizada { nome := 'I', id := 1 } { nome := 'T', id := 7 }]) ∧
    ∃ fila2 pilha2 out, trocarSimples exFilaGirada exPilha2 = some (1, fila2, pilha2, out) ∧
      (∃ p, exPilha2.pecas.read exPilha2.topo = some p ∧
        fila2.pecas.read exFilaGirada.frente = some p) ∧
      (∃ p, exFilaGirada.pecas.read exFilaGirada.frente = some p ∧
        pilha2.pecas.read exPilha2.topo = some p) ∧
      (∀ i : Int, i ≠ exFilaGirada.frente → fila2.pecas.read i = exFilaGirada.pecas.read i) ∧
      (∀ i : Int, i ≠ exPilha2.topo → pilha2.pecas.read i = exPilha2.pecas.read i) ∧
      fila2.frente = exFilaGirada.frente ∧ fila2.tras = exFilaGirada.tras ∧
      fila2.tamanho = exFilaGirada.tamanho ∧ pilha2.topo = exPilha2.topo ∧
      (∀ s : Estado, s.fila = exFilaGirada → s.pilha = exPilha2 →
        ∃ s2, caso4 s = some s2 ∧ s2.fila = fila2 ∧ s2.pilha = pilha2 ∧
          s2.proximoId = s.proximoId) :=
  ⟨by rfl, trocarSimples_transposicao exFilaGirada exPilha2 (by decide) (by decide) (by decide)
    (by decide) (by decide)⟩

/-- C6: for every queue and stack, `trocarSimples` returns 0 if and only if `tamanho = 0` or
`topo = -1`, and whenever it returns 0 the queue and the stack it leaves (slots, indices and
size) are the ones it received. -/
theorem trocarSimples_falha (fila : FilaPecas) (pilha : PilhaReserva) :
    ((∃ f p o, trocarSimples fila pilha = some (0, f, p, o)) ↔
      (fila.tamanho = 0 ∨ pilha.topo = -1)) ∧
    (∀ f p o, trocarSimples fila pilha = some (0, f, p, o) → f = fila ∧ p = pilha) := by
  have key : ∀ f p o, trocarSimples fila pilha = some (0, f, p, o) →
      (fila.tamanho = 0 ∨ pilha.topo = -1) ∧ f = fila ∧ p = pilha := by
    intro f p o h
    rcases trocarSimples_ret fila pilha 0 f p o h with ⟨_, h1, h2, h3⟩ | ⟨h0, _⟩
    · exact ⟨h1, h2, h3⟩
    · exact absurd h0 (by decide)
  refine ⟨⟨?_, ?_⟩, ?_⟩
  · rintro ⟨f, p, o, h⟩
    exact (key f p o h).1
  · intro h
    unfold trocarSimples
    simp only [pilhaVazia_ne_zero]
    by_cases h1 : fila.tamanho = 0
    · exact ⟨_, _, _, by rw [if_pos h1]⟩
    · have h2 : pilha.topo = -1 := h.resolve_left h1
      exact ⟨_, _, _, by rw [if_neg h1, if_pos h2]⟩
  · intro f p o h
    exact (key f p o h).2

/-- C7, counterexample: called with an empty queue and an empty stack, `trocarSimples` prints
the queue error ("Fila vazia"), not the stack error ("Pilha vazia"). -/
theorem trocarSimples_pilha_vazia_contra :
    exPilhaVazia.topo = -1 ∧
    trocarSimples exFilaVazia exPilhaVazia =
      some (0, exFilaVazia, exPilhaVazia, [Msg.erroTrocaFilaVazia]) ∧
    Msg.erroTrocaPilhaVazia ∉ [Msg.erroTrocaFilaVazia] := by
  refine ⟨by decide, by rfl, by decide⟩

/-- C7, amended: called with an empty stack (`topo = -1`), `trocarSimples` returns 0 and
leaves both containers unchanged; it prints the stack error ("Pilha vazia") when the queue
count is not 0, and the queue error ("Fila vazia") when the queue count is 0, because the
queue is checked first. -/
theorem trocarSimples_pilha_vazia (fila : FilaPecas) (pilha : PilhaReserva)
    (h : pilha.topo = -1) :
    trocarSimples fila pilha =
      some (0, fila, pilha,
        [if fila.tamanho = 0 then Msg.erroTrocaFilaVazia else Msg.erroTrocaPilhaVazia]) := by
  unfold trocarSimples
  simp only [pilhaVazia_ne_zero]
  by_cases h1 : fila.tamanho = 0
  · rw [if_pos h1, if_pos h1]
  · rw [if_neg h1, if_pos h, if_neg h1]

/-- C7, witness: a full queue and an empty stack give the stack error. -/
theorem trocarSimples_pilha_vazia_witness :
    exPilhaVazia.topo = -1 ∧
    trocarSimples exFila exPilhaVazia =
      some (0, exFila, exPilhaVazia,
        [if exFila.tamanho = 0 then Msg.erroTrocaFilaVazia else Msg.erroTrocaPilhaVazia]) :=
  ⟨by decide, trocarSimples_pilha_vazia exFila exPilhaVazia (by decide)⟩

/-! ## Invariants of the containers -/

/-- C8: in mestre.c, for every prior content of the variables of `main`, every sequence of
random draws and every finite sequence of menu inputs (any integer `opcao`, so play,
send-to-reserve, use-reserved, both swaps, display, exit and invalid choices), initialisation
and the loop are defined and the state reached has `0 <= tamanho <= 5`; a play action (menu
case 1) taken from that state is defined, its `dequeueFila` returns 1, and whenever its
`dequeueFila` returns 1 the queue count is 5 when the action ends. -/
theorem tamanho_em_limites (rs : Nat → Nat) (fila0 : FilaPecas) (pilha0 : PilhaReserva)
    (peca0 : Peca) (ent : List (Int × Nat)) :
    ∃ s0 s, iniciar rs fila0 pilha0 peca0 = some s0 ∧ executar ent s0 = some s ∧
      0 ≤ s.fila.tamanho ∧ s.fila.tamanho ≤ 5 ∧
      ∀ r : Nat, ∃ s2, iteracao 1 r s = some s2 ∧
        (∃ f p, dequeueFila s.fila s.pecaProcessada = some (1, f, p)) ∧
        ((∃ f p, dequeueFila s.fila s.pecaProcessada = some (1, f, p)) →
          s2.fila.tamanho = 5) := by
  obtain ⟨s0, hs0, hi0⟩ := iniciar_inv rs fila0 pilha0 peca0
  obtain ⟨s, hs, hi⟩ := executar_inv ent s0 hi0
  refine ⟨s0, s, hs0, hs, by rw [hi.1]; decide, by rw [hi.1], ?_⟩
  intro r
  obtain ⟨s2, hs2, hi2⟩ := iteracao_inv 1 r s hi
  refine ⟨s2, hs2, ?_, fun _ => hi2.1⟩
  obtain ⟨⟨⟨a, b, c, d, e⟩, fr, tr, tam⟩, pilha, pp, n, out⟩ := s
  obtain ⟨h1, h2, h3, _⟩ := hi
  simp only at h1 h2 h3
  subst tam
  interval_cases fr <;> exact ⟨_, _, rfl⟩

/-- C9: for every prior content of the stack and every finite sequence of `pushPilha`,
`popPilha`, `trocarSimples` and `trocarMultipla` calls with any arguments, applied after
`inicializarPilha`, the stack reached has `-1 <= topo <= 2`; and the sequence is defined
(no access outside an array) whenever every queue handed to a swap has `0 <= frente < 5`. -/
theorem topo_em_limites (pilha0 : PilhaReserva) (cs : List Chamada) :
    (∀ p, aplicarChamadas cs (inicializarPilha pilha0) = some p → -1 ≤ p.topo ∧ p.topo ≤ 2) ∧
    ((∀ c ∈ cs, c.frenteValida = true) →
      ∃ p, aplicarChamadas cs (inicializarPilha pilha0) = some p ∧
        -1 ≤ p.topo ∧ p.topo ≤ 2) := by
  have hi0 : (-1 : Int) ≤ (inicializarPilha pilha0).topo := by simp [inicializarPilha]
  have hi2 : (inicializarPilha pilha0).topo ≤ 2 := by simp [inicializarPilha]
  refine ⟨fun p h => aplicarChamadas_topo cs _ p hi0 hi2 h, fun hv => ?_⟩
  obtain ⟨p, hp⟩ := aplicarChamadas_def cs _ hi0 hi2 hv
  exact ⟨p, hp, aplicarChamadas_topo cs _ p hi0 hi2 hp⟩

/-- C9, witness: nine calls (a failing pop, pushes up to a failing push on the full stack,
both swaps failing and succeeding, a pop) leave `topo = 1`. -/
theorem topo_em_limites_witness :
    aplicarChamadas exChamadas (inicializarPilha exPilha) =
      some { pecas := { s0 := { nome := 'T', id := 3 }, s1 := { nome := 'O', id := 2 },
                        s2 := { nome := 'I', id := 1 } }, topo := 1 } ∧
    (∀ c ∈ exChamadas, c.frenteValida = true) ∧
    (∀ p, aplicarChamadas exChamadas (inicializarPilha exPilha) = some p →
      -1 ≤ p.topo ∧ p.topo ≤ 2) ∧
    (∃ p, aplicarChamadas exChamadas (inicializarPilha exPilha) = some p ∧
      -1 ≤ p.topo ∧ p.topo ≤ 2) :=
  ⟨by rfl, by decide, (topo_em_limites exPilha exChamadas).1,
    (topo_em_limites exPilha exChamadas).2 (by decide)⟩

/-! ## The play action -/

/-- C10: for every state whose queue is full (`tamanho = 5`, `tras = frente`,
`0 <= frente < 5`) with front-to-back content [a,b,c,d,e] (what `exibirFila` prints) and
every counter value `proximoId = n`, the play action (menu case 1: `dequeueFila` then
`enqueueAutomatico`, both returning 1) returns `a` in `pecaProcessada` and leaves the queue
with front-to-back content [b,c,d,e,p] where `p.id = n`, `tamanho = 5` and
`proximoId = n + 1`. -/
theorem jogar_fila_cheia (s : Estado) (a b c d e : Peca) (r : Nat)
    (htam : s.fila.tamanho = 5) (htras : s.fila.tras = s.fila.frente)
    (hf0 : 0 ≤ s.fila.frente) (hf5 : s.fila.frente < 5)
    (hcont : exibirFila s.fila = some (Msg.cabecalhoFila :: [a, b, c, d, e].map Msg.peca)) :
    ∃ s2 fila1 p,
      caso1 r s = some s2 ∧
      dequeueFila s.fila s.pecaProcessada = some (1, fila1, a) ∧
      enqueueAutomatico r fila1 s.proximoId = some (1, s2.fila, s.proximoId + 1) ∧
      s2.pecaProcessada = a ∧
      exibirFila s2.fila = some (Msg.cabecalhoFila :: [b, c, d, e, p].map Msg.peca) ∧
      p.id = s.proximoId ∧ s2.fila.tamanho = 5 ∧ s2.proximoId = s.proximoId + 1 := by
  obtain ⟨⟨⟨a1, b1, c1, d1, e1⟩, fr, tr, tam⟩, pilha, pp, n, out⟩ := s
  simp only at htam htras hf0 hf5 hcont
  subst tam tr
  interval_cases fr
  all_goals
    simp [exibirFila, exibirFilaLaco, Arr5.read] at hcont
    obtain ⟨rfl, rfl, rfl, rfl, rfl⟩ := hcont
    exact ⟨_, _, _, rfl, rfl, rfl, rfl, rfl, rfl, rfl, rfl⟩

/-- C10, witness: queue ids [0,1,2,3,4] with `proximoId = 5`: the play action returns the
piece with id 0 and leaves ids [1,2,3,4,5] with `proximoId = 6`. -/
theorem jogar_fila_cheia_witness :
    caso1 2 exEstadoInicial =
      some { exEstadoInicial with
        fila := { pecas := { s0 := { nome := 'T', id := 5 }, s1 := { nome := 'O', id := 1 },
                             s2 := { nome := 'T', id := 2 }, s3 := { nome := 'L', id := 3 },
                             s4 := { nome := 'I', id := 4 } },
                  frente := 1, tras := 1, tamanho := 5 },
        pecaProcessada := { nome := 'I', id := 0 },
        proximoId := 6,
        saida := [Msg.pecaJogada { nome := 'I', id := 0 }, Msg.novaPecaGerada] } ∧
    ∃ s2 fila1 p,
      caso1 2 exEstadoInicial = some s2 ∧
      dequeueFila exEstadoInicial.fila exEstadoInicial.pecaProcessada =
        some (1, fila1, { nome := 'I', id := 0 }) ∧
      enqueueAutomatico 2 fila1 exEstadoInicial.proximoId =
        some (1, s2.fila, exEstadoInicial.proximoId + 1) ∧
      s2.pecaProcessada = { nome := 'I', id := 0 } ∧
      exibirFila s2.fila = some (Msg.cabecalhoFila ::
        [{ nome := 'O', id := 1 }, { nome := 'T', id := 2 }, { nome := 'L', id := 3 },
         { nome := 'I', id := 4 }, p].map Msg.peca) ∧
      p.id = exEstadoInicial.proximoId ∧ s2.fila.tamanho = 5 ∧
      s2.proximoId = exEstadoInicial.proximoId + 1 :=
  ⟨by rfl, jogar_fila_cheia exEstadoInicial _ _ _ _ _ 2 rfl rfl (by decide) (by decide)
    (by rfl)⟩

/-! ## The send-to-reserve action and the failing actions -/

/-- C11: for every state whose queue is full and well formed (`tamanho = 5`, `tras = frente`,
`0 <= frente < 5`) with front-to-back content [a,b,c,d,e] (what `exibirFila` prints), whose
stack has `-1 <= topo < 2` and whose counter is `proximoId = n`, the send-to-reserve action
(menu case 2 of mestre.c, and of aventureiro.c with its own message texts) succeeds and
leaves `topo` increased by 1 with `a` at the new top and every other stack slot unchanged,
the queue with front-to-back content [b,c,d,e,p] where `p.id = n` and `tamanho = 5`, and
`proximoId = n + 1`. -/
theorem enviar_reserva (s : Estado) (a b c d e : Peca) (r : Nat)
    (htam : s.fila.tamanho = 5) (htras : s.fila.tras = s.fila.frente)
    (hf0 : 0 ≤ s.fila.frente) (hf5 : s.fila.frente < 5)
    (hcont : exibirFila s.fila = some (Msg.cabecalhoFila :: [a, b, c, d, e].map Msg.peca))
    (ht0 : -1 ≤ s.pilha.topo) (ht2 : s.pilha.topo < 2) :
    ∃ s2 p,
      caso2 r s = some s2 ∧
      Aventureiro.caso2 r s =
        some { s2 with saida := s.saida ++ [Msg.pecaReservada a, Msg.novaPecaGerada] } ∧
      s2.saida = s.saida ++ [Msg.pecaEnviada a, Msg.novaPecaGerada] ∧
      s2.pilha.topo = s.pilha.topo + 1 ∧
      s2.pilha.pecas.read s2.pilha.topo = some a ∧
      (∀ i : Int, i ≠ s.pilha.topo + 1 → s2.pilha.pecas.read i = s.pilha.pecas.read i) ∧
      exibirFila s2.fila = some (Msg.cabecalhoFila :: [b, c, d, e, p].map Msg.peca) ∧
      p.id = s.proximoId ∧ s2.fila.tamanho = 5 ∧ s2.proximoId = s.proximoId + 1 := by
  obtain ⟨⟨⟨a1, b1, c1, d1, e1⟩, fr, tr, tam⟩, ⟨⟨x, y, z⟩, topo⟩, pp, n, out⟩ := s
  simp only at htam htras hf0 hf5 hcont ht0 ht2
  subst tam tr
  interval_cases fr <;> interval_cases topo
  all_goals
    simp [exibirFila, exibirFilaLaco, Arr5.read] at hcont
    obtain ⟨rfl, rfl, rfl, rfl, rfl⟩ := hcont
    refine ⟨_, _, rfl, rfl, rfl, rfl, rfl, ?_, rfl, rfl, rfl, rfl⟩
    intro i hi
    simp at hi
    simp [Arr3.read, hi]

/-- C11, witness: right after initialisation (queue ids [0,1,2,3,4], empty stack,
`proximoId = 5`) the send-to-reserve action puts id 0 in stack slot 0 (`topo = 0`) and leaves
queue ids [1,2,3,4,5] with `proximoId = 6`. -/
theorem enviar_reserva_witness :
    caso2 2 exEstadoInicial =
      some { exEstadoInicial with
        fila := { pecas := { s0 := { nome := 'T', id := 5 }, s1 := { nome := 'O', id := 1 },
                             s2 := { nome := 'T', id := 2 }, s3 := { nome := 'L', id := 3 },
                             s4 := { nome := 'I', id := 4 } },
                  frente := 1, tras := 1, tamanho := 5 },
        pilha := { pecas := { exPilhaVazia.pecas with s0 := { nome := 'I', id := 0 } },
                   topo := 0 },
        pecaProcessada := { nome := 'I', id := 0 },
        proximoId := 6,
        saida := [Msg.pecaEnviada { nome := 'I', id := 0 }, Msg.novaPecaGerada] } ∧
    ∃ s2 p,
      caso2 2 exEstadoInicial = some s2 ∧
      Aventureiro.caso2 2 exEstadoInicial =
        some { s2 with saida := exEstadoInicial.saida ++
          [Msg.pecaReservada { nome := 'I', id := 0 }, Msg.novaPecaGerada] } ∧
      s2.saida = exEstadoInicial.saida ++
        [Msg.pecaEnviada { nome := 'I', id := 0 }, Msg.novaPecaGerada] ∧
      s2.pilha.topo = exEstadoInicial.pilha.topo + 1 ∧
      s2.pilha.pecas.read s2.pilha.topo = some { nome := 'I', id := 0 } ∧
      (∀ i : Int, i ≠ exEstadoInicial.pilha.topo + 1 →
        s2.pilha.pecas.read i = exEstadoInicial.pilha.pecas.read i) ∧
      exibirFila s2.fila = some (Msg.cabecalhoFila ::
        [{ nome := 'O', id := 1 }, { nome := 'T', id := 2 }, { nome := 'L', id := 3 },
         { nome := 'I', id := 4 }, p].map Msg.peca) ∧
      p.id = exEstadoInicial.proximoId ∧ s2.fila.tamanho = 5 ∧
      s2.proximoId = exEstadoInicial.proximoId + 1 :=
  ⟨by rfl, enviar_reserva exEstadoInicial _ _ _ _ _ 2 rfl rfl (by decide) (by decide)
    (by rfl) (by decide) (by decide)⟩

/-- C12: each composite action of mestre.c is a no-op when it fails.  The play action (case 1)
on an empty queue, the send-to-reserve action (case 2) on a full stack or on an empty queue,
and the use-reserved action (case 3) on an empty stack leave the queue, the stack,
`pecaProcessada` and `proximoId` as they were: the state only gains the error message. -/
theorem acoes_falhas_sem_efeito (s : Estado) (r : Nat) :
    (s.fila.tamanho = 0 →
      caso1 r s = some { s with saida := s.saida ++ [Msg.erroJogar] }) ∧
    (s.pilha.topo = 2 →
      caso2 r s = some { s with saida := s.saida ++ [Msg.erroReservaCheia] }) ∧
    (s.pilha.topo ≠ 2 → s.fila.tamanho = 0 →
      caso2 r s = some { s with saida := s.saida ++ [Msg.erroRemover] }) ∧
    (s.pilha.topo = -1 →
      caso3 s = some { s with saida := s.saida ++ [Msg.erroReservaVazia] }) := by
  refine ⟨fun h => ?_, fun h => ?_, fun h1 h2 => ?_, fun h => ?_⟩
  · simp [caso1, dequeueFila, h]
  · simp [caso2, pilhaCheia, h]
  · simp [caso2, pilhaCheia, dequeueFila, h1, h2]
  · simp [caso3, popPilha, pilhaVazia, h]

/-- C12, witness: the four failing actions on a state with an empty queue and an empty stack,
and on a state with a full stack. -/
theorem acoes_falhas_sem_efeito_witness :
    caso1 0 exEstadoFilaVazia =
      some { exEstadoFilaVazia with saida := exEstadoFilaVazia.saida ++ [Msg.erroJogar] } ∧
    caso2 0 exEstadoPilhaCheia =
      some { exEstadoPilhaCheia with
        saida := exEstadoPilhaCheia.saida ++ [Msg.erroReservaCheia] } ∧
    caso2 0 exEstadoFilaVazia =
      some { exEstadoFilaVazia with saida := exEstadoFilaVazia.saida ++ [Msg.erroRemover] } ∧
    caso3 exEstadoFilaVazia =
      some { exEstadoFilaVazia with
        saida := exEstadoFilaVazia.saida ++ [Msg.erroReservaVazia] } :=
  ⟨(acoes_falhas_sem_efeito exEstadoFilaVazia 0).1 (by decide),
   (acoes_falhas_sem_efeito exEstadoPilhaCheia 0).2.1 (by decide),
   (acoes_falhas_sem_efeito exEstadoFilaVazia 0).2.2.1 (by decide) (by decide),
   (acoes_falhas_sem_efeito exEstadoFilaVazia 0).2.2.2 (by decide)⟩

/-! ## Piece source -/

/-- C15: for every prior content of the queue structure, every sequence of draws and every
counter value `n`, `inicializarFila` (mestre.c, and novato.c with `gerarPeca` then `enqueue`)
leaves `tamanho = 5`, `frente = 0`, `tras = 0`, five pieces with ids n, n+1, n+2, n+3, n+4 in
front-to-back order (the order `exibirFila` prints), and `proximoId = n + 5`. -/
theorem inicializarFila_spec (rs : Nat → Nat) (fila : FilaPecas) (n : Int) :
    ∃ p0 p1 p2 p3 p4 : Peca,
      inicializarFila rs fila n = some (⟨⟨p0, p1, p2, p3, p4⟩, 0, 0, 5⟩, n + 5) ∧
      Novato.inicializarFila rs fila n = some (⟨⟨p0, p1, p2, p3, p4⟩, 0, 0, 5⟩, n + 5) ∧
      p0.id = n ∧ p1.id = n + 1 ∧ p2.id = n + 2 ∧ p3.id = n + 3 ∧ p4.id = n + 4 ∧
      exibirFila ⟨⟨p0, p1, p2, p3, p4⟩, 0, 0, 5⟩ =
        some (Msg.cabecalhoFila :: [p0, p1, p2, p3, p4].map Msg.peca) := by
  refine ⟨(gerarPeca (rs 0) n).1, (gerarPeca (rs 1) (n + 1)).1, (gerarPeca (rs 2) (n + 2)).1,
    (gerarPeca (rs 3) (n + 3)).1, (gerarPeca (rs 4) (n + 4)).1, ?_, ?_, rfl, rfl, rfl, rfl, rfl,
    rfl⟩
  · simp [inicializarFila, enqueueAutomatico, gerarPeca, Arr5.write, Int.tmod]
    omega
  · simp [Novato.inicializarFila, Novato.enqueue, Novato.filaCheia, gerarPeca, Arr5.write,
      Int.tmod]
    omega

/-- The body of novato.c `enqueue` once the guard is passed. -/
theorem enqueue_eval (fila : FilaPecas) (peca : Peca) (h : fila.tamanho ≠ 5) :
    Novato.enqueue fila peca =
      (fila.pecas.write fila.tras peca).bind (fun pecas =>
        some (1, { fila with pecas := pecas, tras := Int.tmod (fila.tras + 1) 5,
                             tamanho := fila.tamanho + 1 })) := by
  simp [Novato.enqueue, Novato.filaCheia, h]

/-- The body of `enqueueAutomatico` once the guard is passed. -/
theorem enqueueAutomatico_eval (r : Nat) (fila : FilaPecas) (n : Int) (h : fila.tamanho < 5) :
    enqueueAutomatico r fila n =
      (fila.pecas.write fila.tras (gerarPeca r n).1).bind (fun pecas =>
        some (1, { fila with pecas := pecas, tras := Int.tmod (fila.tras + 1) 5,
                             tamanho := fila.tamanho + 1 }, n + 1)) := by
  have h5 : ¬ fila.tamanho ≥ 5 := by omega
  simp [enqueueAutomatico, h5, gerarPeca]

/-- C16: for every queue with `0 <= tamanho <= 5` and `0 <= tras < 5`, novato.c `enqueue`
and mestre.c `enqueueAutomatico` return 0 if and only if `tamanho = 5`; otherwise they return
1, the inserted piece (the argument, resp. the piece returned by `gerarPeca`) is stored at
slot `tras` (old value), the new `tras` is `(tras + 1) mod 5`, `tamanho` is increased by
exactly 1, and `frente` and every other slot are unchanged. -/
theorem enqueue_spec (fila : FilaPecas) (peca : Peca) (r : Nat) (n : Int)
    (h0 : 0 ≤ fila.tamanho) (h5 : fila.tamanho ≤ 5) (ht0 : 0 ≤ fila.tras) (ht5 : fila.tras < 5) :
    ((∃ f, Novato.enqueue fila peca = some (0, f)) ↔ fila.tamanho = 5) ∧
    (fila.tamanho ≠ 5 →
      ∃ f, Novato.enqueue fila peca = some (1, f) ∧
        f.pecas.read fila.tras = some peca ∧ f.tras = (fila.tras + 1) % 5 ∧
        f.tamanho = fila.tamanho + 1 ∧ f.frente = fila.frente ∧
        ∀ i : Int, i ≠ fila.tras → f.pecas.read i = fila.pecas.read i) ∧
    ((∃ f m, enqueueAutomatico r fila n = some (0, f, m)) ↔ fila.tamanho = 5) ∧
    (fila.tamanho ≠ 5 →
      ∃ f, enqueueAutomatico r fila n = some (1, f, n + 1) ∧
        f.pecas.read fila.tras = some (gerarPeca r n).1 ∧ f.tras = (fila.tras + 1) % 5 ∧
        f.tamanho = fila.tamanho + 1 ∧ f.frente = fila.frente ∧
        ∀ i : Int, i ≠ fila.tras → f.pecas.read i = fila.pecas.read i) := by
  have hN : fila.tamanho ≠ 5 → ∃ f, Novato.enqueue fila peca = some (1, f) ∧
      f.pecas.read fila.tras = some peca ∧ f.tras = (fila.tras + 1) % 5 ∧
      f.tamanho = fila.tamanho + 1 ∧ f.frente = fila.frente ∧
      ∀ i : Int, i ≠ fila.tras → f.pecas.read i = fila.pecas.read i := by
    intro h
    rw [enqueue_eval fila peca h]
    obtain ⟨⟨a, b, c, d, e⟩, fr, tr, tam⟩ := fila
    simp only at ht0 ht5
    interval_cases tr <;>
      exact ⟨_, rfl, rfl, rfl, rfl, rfl, by intro i hi; simp [Arr5.read, hi]⟩
  have hM : fila.tamanho ≠ 5 → ∃ f, enqueueAutomatico r fila n = some (1, f, n + 1) ∧
      f.pecas.read fila.tras = some (gerarPeca r n).1 ∧ f.tras = (fila.tras + 1) % 5 ∧
      f.tamanho = fila.tamanho + 1 ∧ f.frente = fila.frente ∧
      ∀ i : Int, i ≠ fila.tras → f.pecas.read i = fila.pecas.read i := by
    intro h
    rw [enqueueAutomatico_eval r fila n (by omega)]
    obtain ⟨⟨a, b, c, d, e⟩, fr, tr, tam⟩ := fila
    simp only at ht0 ht5
    interval_cases tr <;>
      exact ⟨_, rfl, rfl, rfl, rfl, rfl, by intro i hi; simp [Arr5.read, hi]⟩
  refine ⟨⟨?_, ?_⟩, hN, ⟨?_, ?_⟩, hM⟩
  · rintro ⟨f, hf⟩
    by_contra h
    obtain ⟨g, hg, _⟩ := hN h
    rw [hg] at hf
    simp at hf
  · intro h
    exact ⟨fila, by simp [Novato.enqueue, Novato.filaCheia, h]⟩
  · rintro ⟨f, m, hf⟩
    by_contra h
    obtain ⟨g, hg, _⟩ := hM h
    rw [hg] at hf
    simp at hf
  · intro h
    exact ⟨fila, n, by simp [enqueueAutomatico, h]⟩

/-- C16, witness: a queue of three pieces with `tras = 1` receives a piece in slot 1 and has
`tras = 2`, `tamanho = 4` afterwards. -/
theorem enqueue_spec_witness :
    (0 ≤ exFila3.tamanho ∧ exFila3.tamanho ≤ 5 ∧ 0 ≤ exFila3.tras ∧ exFila3.tras < 5) ∧
    Novato.enqueue exFila3 { nome := 'O', id := 13 } =
      some (1, { exFila3 with pecas := { exFila3.pecas with s1 := { nome := 'O', id := 13 } },
                              tras := 2, tamanho := 4 }) ∧
    enqueueAutomatico 6 exFila3 13 =
      some (1, { exFila3 with pecas := { exFila3.pecas with s1 := { nome := 'T', id := 13 } },
                              tras := 2, tamanho := 4 }, 14) ∧
    (∃ f, Novato.enqueue exFila3 { nome := 'O', id := 13 } = some (1, f) ∧
      f.pecas.read exFila3.tras = some { nome := 'O', id := 13 } ∧
      f.tras = (exFila3.tras + 1) % 5 ∧ f.tamanho = exFila3.tamanho + 1 ∧
      f.frente = exFila3.frente ∧
      ∀ i : Int, i ≠ exFila3.tras → f.pecas.read i = exFila3.pecas.read i) :=
  ⟨by decide, by rfl, by rfl,
    (enqueue_spec exFila3 { nome := 'O', id := 13 } 6 13 (by decide) (by decide) (by decide)
      (by decide)).2.1 (by decide)⟩

/-- The body of `dequeueFila` once the guard is passed. -/
theorem dequeueFila_eval (fila : FilaPecas) (peca : Peca) (h : fila.tamanho ≠ 0) :
    dequeueFila fila peca =
      (fila.pecas.read fila.frente).bind (fun p =>
        some (1, { fila with frente := Int.tmod (fila.frente + 1) 5,
                             tamanho := fila.tamanho - 1 }, p)) := by
  simp [dequeueFila, h]

/-- The function `dequeue` of novato.c computes what `dequeueFila` of mestre.c computes. -/
theorem dequeue_eq_dequeueFila (fila : FilaPecas) (peca : Peca) :
    Novato.dequeue fila peca = dequeueFila fila peca := by
  unfold Novato.dequeue dequeueFila Novato.filaVazia
  by_cases h : fila.tamanho = 0 <;> simp [h]

/-- C17: for every queue with `0 <= tamanho <= 5` and `0 <= frente < 5`, `dequeueFila`
(and novato.c `dequeue`, which computes the same) returns 0 if and only if `tamanho = 0`;
otherwise it returns 1 and the piece stored at slot `frente` (old value), the new `frente` is
`(frente + 1) mod 5`, `tamanho` is decreased by exactly 1, and `tras` and all five slots are
unchanged. -/
theorem dequeue_spec (fila : FilaPecas) (peca : Peca)
    (h0 : 0 ≤ fila.tamanho) (h5 : fila.tamanho ≤ 5) (hf0 : 0 ≤ fila.frente)
    (hf5 : fila.frente < 5) :
    ((∃ f p, dequeueFila fila peca = some (0, f, p)) ↔ fila.tamanho = 0) ∧
    (fila.tamanho ≠ 0 →
      ∃ f p, dequeueFila fila peca = some (1, f, p) ∧
        fila.pecas.read fila.frente = some p ∧ f.frente = (fila.frente + 1) % 5 ∧
        f.tamanho = fila.tamanho - 1 ∧ f.tras = fila.tras ∧ f.pecas = fila.pecas) ∧
    Novato.dequeue fila peca = dequeueFila fila peca := by
  have hS : fila.tamanho ≠ 0 → ∃ f p, dequeueFila fila peca = some (1, f, p) ∧
      fila.pecas.read fila.frente = some p ∧ f.frente = (fila.frente + 1) % 5 ∧
      f.tamanho = fila.tamanho - 1 ∧ f.tras = fila.tras ∧ f.pecas = fila.pecas := by
    intro h
    rw [dequeueFila_eval fila peca h]
    obtain ⟨⟨a, b, c, d, e⟩, fr, tr, tam⟩ := fila
    simp only at hf0 hf5
    interval_cases fr <;> exact ⟨_, _, rfl, rfl, rfl, rfl, rfl, rfl⟩
  refine ⟨⟨?_, ?_⟩, hS, dequeue_eq_dequeueFila fila peca⟩
  · rintro ⟨f, p, hf⟩
    by_contra h
    obtain ⟨g, q, hg, _⟩ := hS h
    rw [hg] at hf
    simp at hf
  · intro h
    exact ⟨fila, peca, by simp [dequeueFila, h]⟩

/-- C17, witness: a queue of three pieces with `frente = 3` gives the piece of slot 3 (id 10)
and has `frente = 4`, `tamanho = 2` afterwards. -/
theorem dequeue_spec_witness :
    (0 ≤ exFila3.tamanho ∧ exFila3.tamanho ≤ 5 ∧ 0 ≤ exFila3.frente ∧ exFila3.frente < 5) ∧
    dequeueFila exFila3 { nome := 'L', id := 99 } =
      some (1, { exFila3 with frente := 4, tamanho := 2 }, { nome := 'I', id := 10 }) ∧
    (∃ f p, dequeueFila exFila3 { nome := 'L', id := 99 } = some (1, f, p) ∧
      exFila3.pecas.read exFila3.frente = some p ∧ f.frente = (exFila3.frente + 1) % 5 ∧
      f.tamanho = exFila3.tamanho - 1 ∧ f.tras = exFila3.tras ∧ f.pecas = exFila3.pecas) :=
  ⟨by decide, by rfl,
    (dequeue_spec exFila3 { nome := 'L', id := 99 } (by decide) (by decide) (by decide)
      (by decide)).2.1 (by decide)⟩

/-- C18: for every stack with `-1 <= topo <= 2` and every piece `p`, `pushPilha` returns 0 if
and only if `topo = 2` (which is when `pilhaCheia` holds); otherwise it returns 1, the new
`topo` is the old `topo + 1`, slot new-`topo` holds `p`, and every other slot (in particular
all slots below it) is unchanged. -/
theorem pushPilha_spec (pilha : PilhaReserva) (p : Peca)
    (h0 : -1 ≤ pilha.topo) (h2 : pilha.topo ≤ 2) :
    ((∃ q, pushPilha pilha p = some (0, q)) ↔ pilha.topo = 2) ∧
    ((pilhaCheia pilha ≠ 0) ↔ pilha.topo = 2) ∧
    (pilha.topo ≠ 2 →
      ∃ q, pushPilha pilha p = some (1, q) ∧ q.topo = pilha.topo + 1 ∧
        q.pecas.read q.topo = some p ∧
        ∀ i : Int, i ≠ pilha.topo + 1 → q.pecas.read i = pilha.pecas.read i) := by
  have hS : pilha.topo ≠ 2 → ∃ q, pushPilha pilha p = some (1, q) ∧ q.topo = pilha.topo + 1 ∧
      q.pecas.read q.topo = some p ∧
      ∀ i : Int, i ≠ pilha.topo + 1 → q.pecas.read i = pilha.pecas.read i := by
    intro h
    obtain ⟨⟨x, y, z⟩, topo⟩ := pilha
    simp only at h0 h2 h
    interval_cases topo
    · exact ⟨_, rfl, rfl, rfl, by intro i hi; simp at hi; simp [Arr3.read, hi]⟩
    · exact ⟨_, rfl, rfl, rfl, by intro i hi; simp at hi; simp [Arr3.read, hi]⟩
    · exact ⟨_, rfl, rfl, rfl, by intro i hi; simp at hi; simp [Arr3.read, hi]⟩
    · exact absurd rfl h
  refine ⟨⟨?_, ?_⟩, pilhaCheia_ne_zero pilha, hS⟩
  · rintro ⟨q, hq⟩
    by_contra h
    obtain ⟨g, hg, _⟩ := hS h
    rw [hg] at hq
    simp at hq
  · intro h
    exact ⟨pilha, by simp [pushPilha, pilhaCheia, h]⟩

/-- C18, witness: a push on a stack of two pieces fills slot 2. -/
theorem pushPilha_spec_witness :
    (-1 ≤ exPilha2.topo ∧ exPilha2.topo ≤ 2) ∧
    pushPilha exPilha2 { nome := 'I', id := 9 } =
      some (1, { pecas := { exPilha2.pecas with s2 := { nome := 'I', id := 9 } }, topo := 2 }) ∧
    (∃ q, pushPilha exPilha2 { nome := 'I', id := 9 } = some (1, q) ∧
      q.topo = exPilha2.topo + 1 ∧ q.pecas.read q.topo = some { nome := 'I', id := 9 } ∧
      ∀ i : Int, i ≠ exPilha2.topo + 1 → q.pecas.read i = exPilha2.pecas.read i) :=
  ⟨by decide, by rfl,
    (pushPilha_spec exPilha2 { nome := 'I', id := 9 } (by decide) (by decide)).2.2
      (by decide)⟩

/-- C19: for every stack with `-1 <= topo <= 2`, `popPilha` returns 0 if and only if
`topo = -1` (which is when `pilhaVazia` holds); otherwise it returns 1 and the piece stored at
slot `topo` (old value), the new `topo` is the old `topo - 1`, and all three slots are
unchanged. -/
theorem popPilha_spec (pilha : PilhaReserva) (peca : Peca)
    (h0 : -1 ≤ pilha.topo) (h2 : pilha.topo ≤ 2) :
    ((∃ q p, popPilha pilha peca = some (0, q, p)) ↔ pilha.topo = -1) ∧
    ((pilhaVazia pilha ≠ 0) ↔ pilha.topo = -1) ∧
    (pilha.topo ≠ -1 →
      ∃ q p, popPilha pilha peca = some (1, q, p) ∧ pilha.pecas.read pilha.topo = some p ∧
        q.topo = pilha.topo - 1 ∧ q.pecas = pilha.pecas) := by
  have hS : pilha.topo ≠ -1 → ∃ q p, popPilha pilha peca = some (1, q, p) ∧
      pilha.pecas.read pilha.topo = some p ∧ q.topo = pilha.topo - 1 ∧
      q.pecas = pilha.pecas := by
    intro h
    obtain ⟨⟨x, y, z⟩, topo⟩ := pilha
    simp only at h0 h2 h
    interval_cases topo
    · exact absurd rfl h
    · exact ⟨_, _, rfl, rfl, rfl, rfl⟩
    · exact ⟨_, _, rfl, rfl, rfl, rfl⟩
    · exact ⟨_, _, rfl, rfl, rfl, rfl⟩
  refine ⟨⟨?_, ?_⟩, pilhaVazia_ne_zero pilha, hS⟩
  · rintro ⟨q, p, hq⟩
    by_contra h
    obtain ⟨g, r, hg, _⟩ := hS h
    rw [hg] at hq
    simp at hq
  · intro h
    exact ⟨pilha, peca, by simp [popPilha, pilhaVazia, h]⟩

/-- C19, witness: a pop on a stack of two pieces returns the piece of slot 1 (id 7). -/
theorem popPilha_spec_witness :
    (-1 ≤ exPilha2.topo ∧ exPilha2.topo ≤ 2) ∧
    popPilha exPilha2 { nome := 'L', id := 99 } =
      some (1, { exPilha2 with topo := 0 }, { nome := 'T', id := 7 }) ∧
    (∃ q p, popPilha exPilha2 { nome := 'L', id := 99 } = some (1, q, p) ∧
      exPilha2.pecas.read exPilha2.topo = some p ∧ q.topo = exPilha2.topo - 1 ∧
      q.pecas = exPilha2.pecas) :=
  ⟨by decide, by rfl,
    (popPilha_spec exPilha2 { nome := 'L', id := 99 } (by decide) (by decide)).2.2
      (by decide)⟩

/-- Calls that return 0 and leave the state as it was can be repeated at will. -/
theorem repetir_falha {ι σ : Type} (f : ι → σ → Option (Int × σ)) (s : σ)
    (h : ∀ i, f i s = some (0, s)) :
    ∀ is : List ι, repetir f is s = some (List.replicate is.length 0, s) := by
  intro is
  induction is with
  | nil => rfl
  | cons i is ih => simp [repetir, h i, ih, List.replicate_succ]

/-- C20: failing primitives have no side effects and fail again.  `dequeueFila` on a queue
with `tamanho = 0`, `popPilha` on a stack with `topo = -1`, `pushPilha` on a stack with
`topo = 2`, and novato.c `enqueue` and mestre.c `enqueueAutomatico` on a queue with
`tamanho = 5` return 0 and leave the container, the caller's output piece and `proximoId`
unchanged; any number of repeated calls, with any arguments, return 0 every time and leave
that same state. -/
theorem falhas_repetidas (fila : FilaPecas) (pilha : PilhaReserva) (peca : Peca) (n : Int) :
    (fila.tamanho = 0 →
      dequeueFila fila peca = some (0, fila, peca) ∧
      ∀ us : List Unit,
        repetir (fun _ (st : FilaPecas × Peca) =>
            (dequeueFila st.1 st.2).map (fun res => (res.1, (res.2.1, res.2.2))))
          us (fila, peca) = some (List.replicate us.length 0, (fila, peca))) ∧
    (pilha.topo = -1 →
      popPilha pilha peca = some (0, pilha, peca) ∧
      ∀ us : List Unit,
        repetir (fun _ (st : PilhaReserva × Peca) =>
            (popPilha st.1 st.2).map (fun res => (res.1, (res.2.1, res.2.2))))
          us (pilha, peca) = some (List.replicate us.length 0, (pilha, peca))) ∧
    (pilha.topo = 2 →
      (∀ p, pushPilha pilha p = some (0, pilha)) ∧
      ∀ ps : List Peca,
        repetir (fun p (st : PilhaReserva) => pushPilha st p) ps pilha =
          some (List.replicate ps.length 0, pilha)) ∧
    (fila.tamanho = 5 →
      (∀ p, Novato.enqueue fila p = some (0, fila)) ∧
      (∀ r, enqueueAutomatico r fila n = some (0, fila, n)) ∧
      (∀ ps : List Peca,
        repetir (fun p (st : FilaPecas) => Novato.enqueue st p) ps fila =
          some (List.replicate ps.length 0, fila)) ∧
      ∀ rs : List Nat,
        repetir (fun r (st : FilaPecas × Int) => enqueueAutomatico r st.1 st.2) rs (fila, n) =
          some (List.replicate rs.length 0, (fila, n))) := by
  refine ⟨fun h => ?_, fun h => ?_, fun h => ?_, fun h => ?_⟩
  · have h1 : dequeueFila fila peca = some (0, fila, peca) := by simp [dequeueFila, h]
    exact ⟨h1, repetir_falha _ _ (fun _ => by simp [h1])⟩
  · have h1 : popPilha pilha peca = some (0, pilha, peca) := by
      simp [popPilha, pilhaVazia, h]
    exact ⟨h1, repetir_falha _ _ (fun _ => by simp [h1])⟩
  · have h1 : ∀ p, pushPilha pilha p = some (0, pilha) := by
      intro p; simp [pushPilha, pilhaCheia, h]
    exact ⟨h1, repetir_falha _ _ h1⟩
  · have h1 : ∀ p, Novato.enqueue fila p = some (0, fila) := by
      intro p; simp [Novato.enqueue, Novato.filaCheia, h]
    have h2 : ∀ r, enqueueAutomatico r fila n = some (0, fila, n) := by
      intro r; simp [enqueueAutomatico, h]
    exact ⟨h1, h2, repetir_falha _ _ h1, repetir_falha _ _ h2⟩

/-- C20, witness: three pushes of different pieces on a full stack and two calls of
`enqueueAutomatico` on a full queue all return 0 and change nothing. -/
theorem falhas_repetidas_witness :
    repetir (fun p (st : PilhaReserva) => pushPilha st p)
        [{ nome := 'I', id := 20 }, { nome := 'O', id := 21 }, { nome := 'T', id := 22 }]
        exPilha = some ([0, 0, 0], exPilha) ∧
    repetir (fun r (st : FilaPecas × Int) => enqueueAutomatico r st.1 st.2) [3, 1] (exFila, 6) =
      some ([0, 0], (exFila, 6)) ∧
    dequeueFila exFilaVazia { nome := 'L', id := 99 } =
      some (0, exFilaVazia, { nome := 'L', id := 99 }) ∧
    popPilha exPilhaVazia { nome := 'L', id := 99 } =
      some (0, exPilhaVazia, { nome := 'L', id := 99 }) :=
  ⟨((falhas_repetidas exFila exPilha { nome := 'L', id := 99 } 6).2.2.1 (by decide)).2 _,
   ((falhas_repetidas exFila exPilha { nome := 'L', id := 99 } 6).2.2.2 (by decide)).2.2.2 _,
   ((falhas_repetidas exFilaVazia exPilhaVazia { nome := 'L', id := 99 } 6).1 (by decide)).1,
   ((falhas_repetidas exFilaVazia exPilhaVazia { nome := 'L', id := 99 } 6).2.1
      (by decide)).1⟩

/-! ## Array accesses -/

/-- A read of `T x[5]` is defined exactly when the index is in `0..4`. -/
theorem arr5_read_isSome {α : Type} (a : Arr5 α) (i : Int) :
    (a.read i).isSome = true ↔ 0 ≤ i ∧ i < 5 := by
  unfold Arr5.read
  split_ifs <;> simp <;> omega

/-- A write to `T x[5]` is defined exactly when the index is in `0..4`. -/
theorem arr5_write_isSome {α : Type} (a : Arr5 α) (i : Int) (x : α) :
    (a.write i x).isSome = true ↔ 0 ≤ i ∧ i < 5 := by
  unfold Arr5.write
  split_ifs <;> simp <;> omega

/-- A read of `T x[3]` is defined exactly when the index is in `0..2`. -/
theorem arr3_read_isSome {α : Type} (a : Arr3 α) (i : Int) :
    (a.read i).isSome = true ↔ 0 ≤ i ∧ i < 3 := by
  unfold Arr3.read
  split_ifs <;> simp <;> omega

/-- A write to `T x[3]` is defined exactly when the index is in `0..2`. -/
theorem arr3_write_isSome {α : Type} (a : Arr3 α) (i : Int) (x : α) :
    (a.write i x).isSome = true ↔ 0 ≤ i ∧ i < 3 := by
  unfold Arr3.write
  split_ifs <;> simp <;> omega

/-! ## Bulk swap: multiset of pieces and involution -/

/-- A defined `trocarMultipla` that passed its guards read the queue at `frente`. -/
theorem trocarMultipla_frente (fila : FilaPecas) (pilha : PilhaReserva) (f : FilaPecas)
    (p : PilhaReserva) (o : List Msg) (h : trocarMultipla fila pilha = some (1, f, p, o)) :
    fila.tamanho = 5 ∧ pilha.topo = 2 ∧ 0 ≤ fila.frente ∧ fila.frente < 5 := by
  rcases trocarMultipla_ret fila pilha 1 f p o h with ⟨h0, _⟩ | ⟨_, h1, h2, _⟩
  · exact absurd h0 (by decide)
  · refine ⟨h1, h2, ?_⟩
    by_contra hfr
    have hnone : fila.pecas.read fila.frente = none := by
      cases hr : fila.pecas.read fila.frente with
      | none => rfl
      | some v =>
        exact absurd ((arr5_read_isSome fila.pecas fila.frente).mp (by rw [hr]; rfl)) hfr
    have : trocarMultipla fila pilha = none := by
      simp [trocarMultipla, h1, h2, salvarFila, List.foldlM, hnone]
    rw [this] at h
    exact absurd h (by simp)

/-- C21: for every queue with `tamanho = 5` and every stack with `topo = 2`, whenever
`trocarMultipla` returns 1 the multiset of the ids held in the five queue slots together with
the three stack slots is the same before and after, and the six pieces in the queue's first
three positions (from `frente`) and in the stack are the same six values before and after. -/
theorem trocarMultipla_multiconjunto (fila : FilaPecas) (pilha : PilhaReserva)
    (f2 : FilaPecas) (p2 : PilhaReserva) (out : List Msg)
    (htam : fila.tamanho = 5) (htopo : pilha.topo = 2)
    (hret : trocarMultipla fila pilha = some (1, f2, p2, out)) :
    (((todosSlots f2 p2).map Peca.id : List Int) : Multiset Int) =
      (((todosSlots fila pilha).map Peca.id : List Int) : Multiset Int) ∧
    ((slotsFila f2.pecas 3 f2.frente ++ slotsPilha p2.pecas 3 : List Peca) : Multiset Peca) =
      ((slotsFila fila.pecas 3 fila.frente ++ slotsPilha pilha.pecas 3 : List Peca) :
        Multiset Peca) ∧
    (slotsFila f2.pecas 3 f2.frente ++ slotsPilha p2.pecas 3).length = 6 := by
  obtain ⟨_, _, hf0, hf5⟩ := trocarMultipla_frente fila pilha f2 p2 out hret
  obtain ⟨⟨a, b, c, d, e⟩, fr, tr, tam⟩ := fila
  obtain ⟨⟨x, y, z⟩, topo⟩ := pilha
  simp only at htam htopo hf0 hf5
  subst htam htopo
  rw [trocarMultipla_eval a b c d e x y z fr tr hf0 hf5] at hret
  interval_cases fr
  all_goals
    simp at hret
    obtain ⟨rfl, rfl, _⟩ := hret
    refine ⟨Multiset.coe_eq_coe.mpr ?_, Multiset.coe_eq_coe.mpr ?_, rfl⟩
    · show List.Perm [_, _, _, _, _, _, _, _] [_, _, _, _, _, _, _, _]
      exact List.perm_iff_count.mpr (fun i => by
        simp only [List.count_cons, List.count_nil]; omega)
    · show List.Perm [_, _, _, _, _, _] [_, _, _, _, _, _]
      exact List.perm_iff_count.mpr (fun i => by
        simp only [List.count_cons, List.count_nil]; omega)

/-- C21, witness: the bulk swap on a full queue whose front is slot 3 and a full stack. -/
theorem trocarMultipla_multiconjunto_witness :
    ∃ f2 p2 out, trocarMultipla exFilaGirada exPilha678 = some (1, f2, p2, out) ∧
      (((todosSlots f2 p2).map Peca.id : List Int) : Multiset Int) =
        (((todosSlots exFilaGirada exPilha678).map Peca.id : List Int) : Multiset Int) ∧
      ((slotsFila f2.pecas 3 f2.frente ++ slotsPilha p2.pecas 3 : List Peca) :
          Multiset Peca) =
        ((slotsFila exFilaGirada.pecas 3 exFilaGirada.frente ++
          slotsPilha exPilha678.pecas 3 : List Peca) : Multiset Peca) ∧
      (slotsFila f2.pecas 3 f2.frente ++ slotsPilha p2.pecas 3).length = 6 :=
  ⟨_, _, _, rfl, trocarMultipla_multiconjunto exFilaGirada exPilha678 _ _ _ rfl rfl rfl⟩

/-- C29: for every queue with `tamanho = 5` and `0 <= frente < 5` and every stack with
`topo = 2`, `trocarMultipla` applied twice in a row returns 1 both times and the second call
leaves exactly the queue and the stack the first call received (every slot, `frente`, `tras`,
`tamanho`, `topo`). -/
theorem trocarMultipla_involucao (fila : FilaPecas) (pilha : PilhaReserva)
    (htam : fila.tamanho = 5) (hf0 : 0 ≤ fila.frente) (hf5 : fila.frente < 5)
    (htopo : pilha.topo = 2) :
    ∃ f1 p1 o1 o2, trocarMultipla fila pilha = some (1, f1, p1, o1) ∧
      trocarMultipla f1 p1 = some (1, fila, pilha, o2) := by
  obtain ⟨⟨a, b, c, d, e⟩, fr, tr, tam⟩ := fila
  obtain ⟨⟨x, y, z⟩, topo⟩ := pilha
  simp only at htam htopo hf0 hf5
  subst htam htopo
  interval_cases fr <;> exact ⟨_, _, _, _, rfl, rfl⟩

/-- C29, witness: two bulk swaps on a full queue whose front is slot 3 and a full stack. -/
theorem trocarMultipla_involucao_witness :
    (exFilaGirada.tamanho = 5 ∧ 0 ≤ exFilaGirada.frente ∧ exFilaGirada.frente < 5 ∧
      exPilha678.topo = 2) ∧
    ∃ f1 p1 o1 o2, trocarMultipla exFilaGirada exPilha678 = some (1, f1, p1, o1) ∧
      trocarMultipla f1 p1 = some (1, exFilaGirada, exPilha678, o2) :=
  ⟨by decide, trocarMultipla_involucao exFilaGirada exPilha678 rfl (by decide) (by decide)
    rfl⟩

/-! ## FIFO and LIFO -/

/-- C22: the circular queue refines a FIFO list.  For every well-formed queue
(`0 <= frente < 5`, `0 <= tamanho <= 5`, `tras = (frente + tamanho) mod 5`), `snapshot` has
`tamanho` pieces and is what `exibirFila` prints (mestre.c and novato.c); an enqueue (novato.c
`enqueue` of `p`, mestre.c `enqueueAutomatico`), which succeeds when `tamanho != 5`, yields a
queue whose snapshot is `snapshot(q) ++ [p]`; a dequeue (`dequeueFila`, novato.c `dequeue`),
which succeeds when `tamanho != 0`, returns the head of `snapshot(q)` and yields a queue whose
snapshot is its tail. -/
theorem fila_refina_fifo (fila : FilaPecas) (p peca : Peca) (r : Nat) (n : Int)
    (hwf : FilaBemFormada fila) :
    (snapshot fila).length = fila.tamanho.toNat ∧
    (fila.tamanho ≠ 0 →
      exibirFila fila = some (Msg.cabecalhoFila :: (snapshot fila).map Msg.peca) ∧
      Novato.exibirFila fila =
        some (Msg.cabecalhoFilaNovato :: (snapshot fila).map Msg.peca)) ∧
    (fila.tamanho ≠ 5 →
      (∃ f, Novato.enqueue fila p = some (1, f) ∧ snapshot f = snapshot fila ++ [p]) ∧
      (∃ f, enqueueAutomatico r fila n = some (1, f, n + 1) ∧
        snapshot f = snapshot fila ++ [(gerarPeca r n).1])) ∧
    (fila.tamanho ≠ 0 →
      (∃ f q, dequeueFila fila peca = some (1, f, q) ∧ snapshot fila = q :: snapshot f) ∧
      (∃ f q, Novato.dequeue fila peca = some (1, f, q) ∧
        snapshot fila = q :: snapshot f)) := by
  obtain ⟨⟨a, b, c, d, e⟩, fr, tr, tam⟩ := fila
  obtain ⟨h1, h2, _, _, h5, h6, h7⟩ := hwf
  simp only at h1 h2 h5 h6 h7
  refine ⟨?_, ?_, ?_, ?_⟩
  · interval_cases fr <;> interval_cases tam <;> rfl
  · intro h
    simp only at h
    interval_cases fr <;> interval_cases tam <;>
      first
      | exact absurd rfl h
      | exact ⟨rfl, rfl⟩
  · intro h
    simp only at h
    have hlt : tam < 5 := by omega
    rw [enqueue_eval _ p h, enqueueAutomatico_eval r _ n hlt]
    interval_cases fr <;> interval_cases tam <;>
      first
      | exact absurd rfl h
      | (subst h7; exact ⟨⟨_, rfl, rfl⟩, ⟨_, rfl, rfl⟩⟩)
  · intro h
    simp only at h
    rw [dequeue_eq_dequeueFila, dequeueFila_eval _ peca h]
    interval_cases fr <;> interval_cases tam <;>
      first
      | exact absurd rfl h
      | exact ⟨⟨_, _, rfl, rfl⟩, ⟨_, _, rfl, rfl⟩⟩

/-- C22, witness: a queue of three pieces in slots 3, 4, 0 (ids 10, 11, 12). -/
theorem fila_refina_fifo_witness :
    FilaBemFormada exFila3 ∧
    snapshot exFila3 =
      [{ nome := 'I', id := 10 }, { nome := 'O', id := 11 }, { nome := 'T', id := 12 }] ∧
    (∃ f, Novato.enqueue exFila3 { nome := 'O', id := 13 } = some (1, f) ∧
      snapshot f = snapshot exFila3 ++ [{ nome := 'O', id := 13 }]) ∧
    (∃ f q, dequeueFila exFila3 { nome := 'L', id := 99 } = some (1, f, q) ∧
      snapshot exFila3 = q :: snapshot f) :=
  ⟨by decide, by rfl,
    ((fila_refina_fifo exFila3 { nome := 'O', id := 13 } { nome := 'L', id := 99 } 6 13
      (by decide)).2.2.1 (by decide)).1,
    ((fila_refina_fifo exFila3 { nome := 'O', id := 13 } { nome := 'L', id := 99 } 6 13
      (by decide)).2.2.2 (by decide)).1⟩

/-- C23: the reserve stack is LIFO.  For every stack with `-1 <= topo < 2` and every piece
`p`, `pushPilha` of `p` followed by `popPilha` returns 1 both times, gives back `p`, and
restores `topo` and the content of the live slots `0..topo`: the top-to-base snapshot, which
is what `exibirPilha` prints, is the same as before the push. -/
theorem push_pop (pilha : PilhaReserva) (p peca : Peca)
    (h0 : -1 ≤ pilha.topo) (h2 : pilha.topo < 2) :
    ∃ q q2, pushPilha pilha p = some (1, q) ∧ popPilha q peca = some (1, q2, p) ∧
      q2.topo = pilha.topo ∧
      slotsPilha q2.pecas (q2.topo + 1).toNat = slotsPilha pilha.pecas (pilha.topo + 1).toNat ∧
      snapshotPilha q2 = snapshotPilha pilha ∧
      exibirPilha q2 = exibirPilha pilha ∧
      (pilha.topo ≠ -1 →
        exibirPilha pilha = some (Msg.cabecalhoPilha :: (snapshotPilha pilha).map Msg.peca)) ∧
      snapshotPilha q = p :: snapshotPilha pilha := by
  obtain ⟨⟨x, y, z⟩, topo⟩ := pilha
  simp only at h0 h2
  interval_cases topo
  · exact ⟨_, _, rfl, rfl, rfl, rfl, rfl, rfl, fun h => absurd rfl h, rfl⟩
  · exact ⟨_, _, rfl, rfl, rfl, rfl, rfl, rfl, fun _ => rfl, rfl⟩
  · exact ⟨_, _, rfl, rfl, rfl, rfl, rfl, rfl, fun _ => rfl, rfl⟩

/-- C23, witness: push then pop on a stack of two pieces. -/
theorem push_pop_witness :
    (-1 ≤ exPilha2.topo ∧ exPilha2.topo < 2) ∧
    ∃ q q2, pushPilha exPilha2 { nome := 'I', id := 9 } = some (1, q) ∧
      popPilha q { nome := 'L', id := 99 } = some (1, q2, { nome := 'I', id := 9 }) ∧
      q2.topo = exPilha2.topo ∧
      slotsPilha q2.pecas (q2.topo + 1).toNat =
        slotsPilha exPilha2.pecas (exPilha2.topo + 1).toNat ∧
      snapshotPilha q2 = snapshotPilha exPilha2 ∧
      exibirPilha q2 = exibirPilha exPilha2 ∧
      (exPilha2.topo ≠ -1 →
        exibirPilha exPilha2 =
          some (Msg.cabecalhoPilha :: (snapshotPilha exPilha2).map Msg.peca)) ∧
      snapshotPilha q = { nome := 'I', id := 9 } :: snapshotPilha exPilha2 :=
  ⟨by decide, push_pop exPilha2 { nome := 'I', id := 9 } { nome := 'L', id := 99 }
    (by decide) (by decide)⟩

/-! ## The simplest variant: novato.c -/

/-- Well-formedness from the front index and the count, both given as numerals. -/
theorem bemFormada_intro (fila : FilaPecas) (fr tam : Int) (h1 : fila.frente = fr)
    (h2 : fila.tamanho = tam) (h3 : fila.tras = Int.emod (fr + tam) 5)
    (hfr : decide (0 ≤ fr ∧ fr < 5) = true) (htam : decide (0 ≤ tam ∧ tam ≤ 5) = true) :
    FilaBemFormada fila := by
  have hf := of_decide_eq_true hfr
  have ht := of_decide_eq_true htam
  have h3b : fila.tras = (fr + tam) % 5 := h3
  refine ⟨h1 ▸ hf.1, h1 ▸ hf.2, ?_, ?_, h2 ▸ ht.1, h2 ▸ ht.2, ?_⟩
  · rw [h3b]; omega
  · rw [h3b]; omega
  · rw [h3b, h1, h2]

/-- C25: for every queue with `0 <= tamanho <= 5` and `frente`, `tras` in `0..4`, if
`dequeueFila` returns 1 then `enqueueAutomatico` called on the queue it leaves returns 1. -/
theorem refill_nunca_falha (fila : FilaPecas) (peca : Peca) (r : Nat) (n : Int)
    (h0 : 0 ≤ fila.tamanho) (h5 : fila.tamanho ≤ 5) (hf0 : 0 ≤ fila.frente)
    (hf5 : fila.frente < 5) (ht0 : 0 ≤ fila.tras) (ht5 : fila.tras < 5)
    (f : FilaPecas) (p : Peca) (hd : dequeueFila fila peca = some (1, f, p)) :
    ∃ f2, enqueueAutomatico r f n = some (1, f2, n + 1) := by
  have htam : fila.tamanho ≠ 0 := by
    intro h
    simp [dequeueFila, h] at hd
  rw [dequeueFila_eval fila peca htam] at hd
  obtain ⟨⟨a, b, c, d, e⟩, fr, tr, tam⟩ := fila
  simp only at h0 h5 hf0 hf5 ht0 ht5 htam
  simp only [Option.bind_eq_some] at hd
  obtain ⟨q, _, hq⟩ := hd
  simp only [Option.some.injEq, Prod.mk.injEq] at hq
  obtain ⟨_, rfl, _⟩ := hq
  rw [enqueueAutomatico_eval r _ n (by simp only; omega)]
  interval_cases tr <;> exact ⟨_, rfl⟩

/-- C25, witness: the refill after a removal from a queue of three pieces. -/
theorem refill_nunca_falha_witness :
    dequeueFila exFila3 { nome := 'L', id := 99 } =
      some (1, { exFila3 with frente := 4, tamanho := 2 }, { nome := 'I', id := 10 }) ∧
    ∃ f2, enqueueAutomatico 6 { exFila3 with frente := 4, tamanho := 2 } 13 =
      some (1, f2, 13 + 1) :=
  ⟨by rfl, refill_nunca_falha exFila3 { nome := 'L', id := 99 } 6 13 (by decide) (by decide)
    (by decide) (by decide) (by decide) (by decide) _ _ rfl⟩

/-- C26, counterexample: in a state whose count is corrupted (`tamanho = 6`, `frente = 0`),
menu case 1 of mestre.c finds `dequeueFila` returning 1 and `enqueueAutomatico` returning 0
(no piece generated, `proximoId` unchanged); the action prints the played piece and
"Nova peca gerada automaticamente para a fila.", nothing else, and the loop goes on to
process the next menu input (here 6, whose message ends the output). -/
theorem refill_falho_contra :
    ∃ f p s2 s3,
      dequeueFila exEstadoCorrompido.fila exEstadoCorrompido.pecaProcessada = some (1, f, p) ∧
      enqueueAutomatico 0 f exEstadoCorrompido.proximoId =
        some (0, f, exEstadoCorrompido.proximoId) ∧
      caso1 0 exEstadoCorrompido = some s2 ∧
      s2.saida = exEstadoCorrompido.saida ++ [Msg.pecaJogada p, Msg.novaPecaGerada] ∧
      s2.proximoId = exEstadoCorrompido.proximoId ∧ s2.fila = f ∧
      executar [(1, 0), (6, 0)] exEstadoCorrompido = some s3 ∧
      Msg.novaPecaGerada ∈ s3.saida ∧ s3.saida.getLast? = some Msg.exibindo :=
  ⟨_, _, _, _, by rfl, by rfl, by rfl, by rfl, by rfl, by rfl, by rfl, by decide, by rfl⟩

/-- C26, amended: menu case 1 of mestre.c does not look at what `enqueueAutomatico` returns and
has no abort path.  For every state (the count may be corrupted) in which `dequeueFila`
returns 1 and `enqueueAutomatico` returns some `ret`, the action prints the played piece and
then "Nova peca gerada automaticamente para a fila." and nothing else, and the loop goes on
with the remaining inputs.  The refill returns 0 exactly when `tamanho > 5` held before the
action, and then the queue is the one `dequeueFila` left and `proximoId` is unchanged.  In
every state reached from initialisation by any menu inputs, `dequeueFila` returns 1 and the
refill returns 1 with a new piece generated. -/
theorem refill_resultado_ignorado :
    (∀ (s : Estado) (r : Nat) (f : FilaPecas) (p : Peca) (ret : Int) (f2 : FilaPecas) (n2 : Int),
      dequeueFila s.fila s.pecaProcessada = some (1, f, p) →
      enqueueAutomatico r f s.proximoId = some (ret, f2, n2) →
        caso1 r s = some { s with fila := f2, pecaProcessada := p, proximoId := n2,
                                  saida := s.saida ++ [Msg.pecaJogada p, Msg.novaPecaGerada] } ∧
        (∀ (d : List Msg) (resto : List (Int × Nat)),
          exibirEstadoCompleto s.fila s.pilha = some d →
          executar ((1, r) :: resto) s =
            executar resto
              { s with fila := f2, pecaProcessada := p, proximoId := n2,
                       saida := s.saida ++ d ++ [Msg.pecaJogada p, Msg.novaPecaGerada] }) ∧
        (ret = 0 ↔ 5 < s.fila.tamanho) ∧
        (ret = 0 → f2 = f ∧ n2 = s.proximoId)) ∧
    (∀ (rs : Nat → Nat) (fila0 : FilaPecas) (pilha0 : PilhaReserva) (peca0 : Peca)
        (ent : List (Int × Nat)),
      ∃ s0 s, iniciar rs fila0 pilha0 peca0 = some s0 ∧ executar ent s0 = some s ∧
        ∀ r : Nat, ∃ f p f2, dequeueFila s.fila s.pecaProcessada = some (1, f, p) ∧
          enqueueAutomatico r f s.proximoId = some (1, f2, s.proximoId + 1)) := by
  constructor
  · intro s r f p ret f2 n2 hd he
    have hc : caso1 r s =
        some { s with fila := f2, pecaProcessada := p, proximoId := n2,
                      saida := s.saida ++ [Msg.pecaJogada p, Msg.novaPecaGerada] } := by
      simp [caso1, hd, he]
    have htam : s.fila.tamanho ≠ 0 := by
      intro h
      simp [dequeueFila, h] at hd
    have hf : f.tamanho = s.fila.tamanho - 1 := by
      rw [dequeueFila_eval _ _ htam] at hd
      simp only [Option.bind_eq_some] at hd
      obtain ⟨q, _, hq⟩ := hd
      simp only [Option.some.injEq, Prod.mk.injEq] at hq
      obtain ⟨_, rfl, _⟩ := hq
      rfl
    refine ⟨hc, ?_, ?_, ?_⟩
    · intro d resto hx
      simp [executar, iteracao, hx, processarOpcao, caso1, hd, he]
    · by_cases h5 : f.tamanho ≥ 5
      · simp [enqueueAutomatico, h5] at he
        constructor
        · intro _; omega
        · intro _; exact he.1.symm
      · have h5b : f.tamanho < 5 := by omega
        rw [enqueueAutomatico_eval r f _ h5b] at he
        simp only [Option.bind_eq_some] at he
        obtain ⟨q, _, hq⟩ := he
        simp only [Option.some.injEq, Prod.mk.injEq] at hq
        obtain ⟨h1, _, _⟩ := hq
        constructor
        · intro h0; omega
        · intro h6; omega
    · intro h0
      subst h0
      by_cases h5 : f.tamanho ≥ 5
      · simp [enqueueAutomatico, h5] at he
        exact ⟨he.1.symm, he.2.symm⟩
      · have h5b : f.tamanho < 5 := by omega
        rw [enqueueAutomatico_eval r f _ h5b] at he
        simp only [Option.bind_eq_some] at he
        obtain ⟨q, _, hq⟩ := he
        simp only [Option.some.injEq, Prod.mk.injEq] at hq
        obtain ⟨h1, _, _⟩ := hq
        omega
  · intro rs fila0 pilha0 peca0 ent
    obtain ⟨s0, hs0, hi0⟩ := iniciar_inv rs fila0 pilha0 peca0
    obtain ⟨s, hs, hi⟩ := executar_inv ent s0 hi0
    refine ⟨s0, s, hs0, hs, ?_⟩
    intro r
    obtain ⟨⟨⟨a, b, c, d, e⟩, fr, tr, tam⟩, pilha, pp, n, out⟩ := s
    obtain ⟨h1, h2, h3, h4, _⟩ := hi
    simp only at h1 h2 h3 h4
    subst tam tr
    interval_cases fr <;> exact ⟨_, _, _, rfl, rfl⟩

/-- C26, witness: the amended statement at the state with `tamanho = 6` and `rand() = 3`. -/
theorem refill_resultado_ignorado_witness :
    dequeueFila exEstadoCorrompido.fila exEstadoCorrompido.pecaProcessada =
      some (1, { exEstadoCorrompido.fila with frente := 1, tamanho := 5 },
            { nome := 'I', id := 0 }) ∧
    enqueueAutomatico 3 { exEstadoCorrompido.fila with frente := 1, tamanho := 5 }
        exEstadoCorrompido.proximoId =
      some (0, { exEstadoCorrompido.fila with frente := 1, tamanho := 5 }, 5) ∧
    caso1 3 exEstadoCorrompido =
      some { exEstadoCorrompido with
        fila := { exEstadoCorrompido.fila with frente := 1, tamanho := 5 },
        pecaProcessada := { nome := 'I', id := 0 },
        proximoId := 5,
        saida := exEstadoCorrompido.saida ++
          [Msg.pecaJogada { nome := 'I', id := 0 }, Msg.novaPecaGerada] } ∧
    ((0 : Int) = 0 ↔ 5 < exEstadoCorrompido.fila.tamanho) :=
  ⟨by rfl, by rfl,
    (refill_resultado_ignorado.1 exEstadoCorrompido 3 _ _ 0 _ _ (by rfl) (by rfl)).1,
    (refill_resultado_ignorado.1 exEstadoCorrompido 3 _ _ 0 _ _ (by rfl) (by rfl)).2.2.1⟩

/-! ## Well-formedness of the queue and array bounds -/

/-- C27: queue well-formedness (`0 <= frente < 5`, `0 <= tras < 5`, `0 <= tamanho <= 5`,
`tras = (frente + tamanho) mod 5`) holds after `inicializarFila` (mestre.c and novato.c,
whatever the structure held) and is preserved by `enqueueAutomatico`, novato.c `enqueue`,
`dequeueFila`, novato.c `dequeue`, `trocarSimples` and `trocarMultipla`, whether they return
0 or 1; the queue functions are defined on every well-formed queue, and the swaps on every
well-formed queue and stack with `-1 <= topo <= 2`. -/
theorem fila_bem_formada (fila : FilaPecas) (pilha : PilhaReserva) (p peca : Peca) (r : Nat)
    (n : Int) (hwf : FilaBemFormada fila) :
    (∀ (rs : Nat → Nat) (fila0 : FilaPecas) (n0 : Int),
      (∃ f m, inicializarFila rs fila0 n0 = some (f, m) ∧ FilaBemFormada f) ∧
      (∃ f m, Novato.inicializarFila rs fila0 n0 = some (f, m) ∧ FilaBemFormada f)) ∧
    (∃ ret f m, enqueueAutomatico r fila n = some (ret, f, m) ∧ FilaBemFormada f) ∧
    (∃ ret f, Novato.enqueue fila p = some (ret, f) ∧ FilaBemFormada f) ∧
    (∃ ret f q, dequeueFila fila peca = some (ret, f, q) ∧ FilaBemFormada f) ∧
    (∃ ret f q, Novato.dequeue fila peca = some (ret, f, q) ∧ FilaBemFormada f) ∧
    (∀ ret f q o, trocarSimples fila pilha = some (ret, f, q, o) → FilaBemFormada f) ∧
    (∀ ret f q o, trocarMultipla fila pilha = some (ret, f, q, o) → FilaBemFormada f) ∧
    (-1 ≤ pilha.topo → pilha.topo ≤ 2 →
      (∃ ret f q o, trocarSimples fila pilha = some (ret, f, q, o)) ∧
      (∃ ret f q o, trocarMultipla fila pilha = some (ret, f, q, o))) := by
  refine ⟨?_, ?_, ?_, ?_, ?_, ?_, ?_, ?_⟩
  · intro rs fila0 n0
    constructor
    · refine ⟨⟨⟨(gerarPeca (rs 0) n0).1, (gerarPeca (rs 1) (n0 + 1)).1,
        (gerarPeca (rs 2) (n0 + 2)).1, (gerarPeca (rs 3) (n0 + 3)).1,
        (gerarPeca (rs 4) (n0 + 4)).1⟩, 0, 0, 5⟩, n0 + 5, ?_,
        bemFormada_intro _ _ _ rfl rfl rfl rfl rfl⟩
      simp [inicializarFila, enqueueAutomatico, gerarPeca, Arr5.write, Int.tmod]
      omega
    · refine ⟨⟨⟨(gerarPeca (rs 0) n0).1, (gerarPeca (rs 1) (n0 + 1)).1,
        (gerarPeca (rs 2) (n0 + 2)).1, (gerarPeca (rs 3) (n0 + 3)).1,
        (gerarPeca (rs 4) (n0 + 4)).1⟩, 0, 0, 5⟩, n0 + 5, ?_,
        bemFormada_intro _ _ _ rfl rfl rfl rfl rfl⟩
      simp [Novato.inicializarFila, Novato.enqueue, Novato.filaCheia, gerarPeca, Arr5.write,
        Int.tmod]
      omega
  · obtain ⟨⟨a, b, c, d, e⟩, fr, tr, tam⟩ := fila
    obtain ⟨h1, h2, _, _, h5, h6, h7⟩ := hwf
    simp only at h1 h2 h5 h6 h7
    subst h7
    interval_cases fr <;> interval_cases tam <;>
      exact ⟨_, _, _, rfl, bemFormada_intro _ _ _ rfl rfl rfl rfl rfl⟩
  · obtain ⟨⟨a, b, c, d, e⟩, fr, tr, tam⟩ := fila
    obtain ⟨h1, h2, _, _, h5, h6, h7⟩ := hwf
    simp only at h1 h2 h5 h6 h7
    subst h7
    interval_cases fr <;> interval_cases tam <;>
      exact ⟨_, _, rfl, bemFormada_intro _ _ _ rfl rfl rfl rfl rfl⟩
  · obtain ⟨⟨a, b, c, d, e⟩, fr, tr, tam⟩ := fila
    obtain ⟨h1, h2, _, _, h5, h6, h7⟩ := hwf
    simp only at h1 h2 h5 h6 h7
    subst h7
    interval_cases fr <;> interval_cases tam <;>
      exact ⟨_, _, _, rfl, bemFormada_intro _ _ _ rfl rfl rfl rfl rfl⟩
  · obtain ⟨⟨a, b, c, d, e⟩, fr, tr, tam⟩ := fila
    obtain ⟨h1, h2, _, _, h5, h6, h7⟩ := hwf
    simp only at h1 h2 h5 h6 h7
    subst h7
    interval_cases fr <;> interval_cases tam <;>
      exact ⟨_, _, _, rfl, bemFormada_intro _ _ _ rfl rfl rfl rfl rfl⟩
  · intro ret f q o h
    rcases trocarSimples_ret fila pilha ret f q o h with ⟨_, _, rfl, _⟩ | ⟨_, _, _, hf, ht, hn, _⟩
    · exact hwf
    · simpa only [FilaBemFormada, hf, ht, hn] using hwf
  · intro ret f q o h
    rcases trocarMultipla_ret fila pilha ret f q o h with ⟨_, _, rfl, _⟩ | ⟨_, _, _, hf, ht, hn, _⟩
    · exact hwf
    · simpa only [FilaBemFormada, hf, ht, hn] using hwf
  · intro ht0 ht2
    obtain ⟨⟨a, b, c, d, e⟩, fr, tr, tam⟩ := fila
    obtain ⟨⟨x, y, z⟩, topo⟩ := pilha
    obtain ⟨h1, h2, _, _, h5, h6, h7⟩ := hwf
    simp only at h1 h2 h5 h6 h7 ht0 ht2
    subst h7
    interval_cases fr <;> interval_cases tam <;> interval_cases topo <;>
      exact ⟨⟨_, _, _, _, rfl⟩, ⟨_, _, _, _, rfl⟩⟩

/-- C27, witness: a queue of three pieces in slots 3, 4, 0 stays well formed through a
removal and an insertion. -/
theorem fila_bem_formada_witness :
    FilaBemFormada exFila3 ∧
    (∃ ret f q, dequeueFila exFila3 { nome := 'L', id := 99 } = some (ret, f, q) ∧
      FilaBemFormada f) ∧
    (∃ ret f m, enqueueAutomatico 6 exFila3 13 = some (ret, f, m) ∧ FilaBemFormada f) :=
  ⟨by decide,
    (fila_bem_formada exFila3 exPilha2 { nome := 'O', id := 13 } { nome := 'L', id := 99 } 6 13
      (by decide)).2.2.2.1,
    (fila_bem_formada exFila3 exPilha2 { nome := 'O', id := 13 } { nome := 'L', id := 99 } 6 13
      (by decide)).2.1⟩

/-- C28: all array accesses of mestre.c are in bounds.  A read or a write of an array is
defined exactly when its index is inside the array, and from initialisation, after any finite
sequence of menu inputs, the next turn of the loop (display and any menu action, with every
read and write it makes on `fila->pecas` and `pilha->pecas`) is defined; in the state reached
`frente` and `tras` are in `0..4` and `topo` is in `-1..2`. -/
theorem acessos_em_limites (rs : Nat → Nat) (fila0 : FilaPecas) (pilha0 : PilhaReserva)
    (peca0 : Peca) (ent : List (Int × Nat)) (opcao : Int) (r : Nat) :
    (∀ (α : Type) (a : Arr5 α) (i : Int) (x : α),
      ((a.read i).isSome = true ↔ 0 ≤ i ∧ i < 5) ∧
      ((a.write i x).isSome = true ↔ 0 ≤ i ∧ i < 5)) ∧
    (∀ (α : Type) (a : Arr3 α) (i : Int) (x : α),
      ((a.read i).isSome = true ↔ 0 ≤ i ∧ i < 3) ∧
      ((a.write i x).isSome = true ↔ 0 ≤ i ∧ i < 3)) ∧
    ∃ s0 s s2, iniciar rs fila0 pilha0 peca0 = some s0 ∧ executar ent s0 = some s ∧
      iteracao opcao r s = some s2 ∧
      0 ≤ s.fila.frente ∧ s.fila.frente < 5 ∧ 0 ≤ s.fila.tras ∧ s.fila.tras < 5 ∧
      -1 ≤ s.pilha.topo ∧ s.pilha.topo ≤ 2 := by
  refine ⟨fun _ a i x => ⟨arr5_read_isSome a i, arr5_write_isSome a i x⟩,
    fun _ a i x => ⟨arr3_read_isSome a i, arr3_write_isSome a i x⟩, ?_⟩
  obtain ⟨s0, hs0, hi0⟩ := iniciar_inv rs fila0 pilha0 peca0
  obtain ⟨s, hs, hi⟩ := executar_inv ent s0 hi0
  obtain ⟨s2, hs2, _⟩ := iteracao_inv opcao r s hi
  obtain ⟨_, h2, h3, h4, h5, h6⟩ := hi
  exact ⟨s0, s, s2, hs0, hs, hs2, h2, h3, h4 ▸ h2, h4 ▸ h3, h5, h6⟩

end Tetris
